import Mathlib

/-!
A verification development for the mygo unified database client: a shallow
embedding of its command translator (internal/translator/translator.go) and of
the database-switching path (internal/db/db.go SetDatabase together with the
use_database arm of internal/client/client.go handleSpecialCommand), with
theorems checking the natural-language specification against the code.

Strings are modelled through their character lists; Go's regular expressions
(all anchored, built from case-insensitive literals, \s+, optional groups,
alternations and single-character-class captures) are embedded as a small
backtracking matcher whose result lists are ordered by the leftmost-first,
greedy priority Go's regexp submatch semantics prescribes.
-/

namespace MyGo

/-! ## Character classes -/

/-- ASCII upcasing of one character, mirroring what Go's strings.ToUpper and the
case-insensitive regex flag do on ASCII letters (the inputs handled here). -/
def upChar (c : Char) : Char :=
  if 97 ≤ c.toNat ∧ c.toNat ≤ 122 then Char.ofNat (c.toNat - 32) else c

/-- Whitespace as Go's unicode.IsSpace sees it in the Latin-1 range:
tab, newline, vertical tab, form feed, carriage return, space, NEL, NBSP. -/
def goIsSpace (c : Char) : Bool :=
  c.toNat = 9 || c.toNat = 10 || c.toNat = 11 || c.toNat = 12 ||
    c.toNat = 13 || c.toNat = 32 || c.toNat = 133 || c.toNat = 160

/-- The regexp character class \s of Go's regexp package: [\t\n\f\r ]. -/
def regexSpace (c : Char) : Bool :=
  c.toNat = 9 || c.toNat = 10 || c.toNat = 12 || c.toNat = 13 || c.toNat = 32

/-- The regexp character class \w of Go's regexp package: [0-9A-Za-z_]. -/
def isWordChar (c : Char) : Bool :=
  (48 ≤ c.toNat && c.toNat ≤ 57) || (65 ≤ c.toNat && c.toNat ≤ 90) ||
    (97 ≤ c.toNat && c.toNat ≤ 122) || c.toNat = 95

/-- The regexp character class [^'] (anything except an ASCII apostrophe). -/
def notQuote (c : Char) : Bool :=
  c.toNat != 39

/-! ## Go string helpers used by the translator -/

/-- strings.TrimSpace: drop leading and trailing whitespace. -/
def goTrimSpace (s : String) : String :=
  ⟨List.rdropWhile goIsSpace (s.data.dropWhile goIsSpace)⟩

/-- strings.TrimSuffix(s, ";"): drop one trailing semicolon when present. -/
def goTrimSuffixSemi (s : String) : String :=
  if s.data.getLast? = some ';' then ⟨s.data.dropLast⟩ else s

/-- strings.ToUpper restricted to ASCII upcasing. -/
def goToUpper (s : String) : String :=
  ⟨s.data.map upChar⟩

/-- strings.HasPrefix. -/
def goHasPre (p s : String) : Bool :=
  p.data.isPrefixOf s.data

/-- Worker for goFields: split into maximal runs of non-whitespace, the
current run accumulated in reverse in `cur`. -/
def fieldsList : List Char → List Char → List (List Char)
  | [], cur => if cur.isEmpty then [] else [cur.reverse]
  | c :: t, cur =>
    if goIsSpace c then
      if cur.isEmpty then fieldsList t [] else cur.reverse :: fieldsList t []
    else fieldsList t (c :: cur)

/-- strings.Fields: whitespace-separated tokens. -/
def goFields (s : String) : List String :=
  (fieldsList s.data []).map fun l => ⟨l⟩

/-- strings.ReplaceAll on character lists, replacing non-overlapping matches
left to right; the fuel argument (instantiated with the list's length, an upper
bound on the number of steps) keeps the recursion structural. -/
def replaceAllFuel : Nat → List Char → List Char → List Char → List Char
  | 0, _, _, s => s
  | _ + 1, _, _, [] => []
  | f + 1, old, nw, c :: t =>
    if old.isPrefixOf (c :: t) && !old.isEmpty then
      nw ++ replaceAllFuel f old nw ((c :: t).drop old.length)
    else
      c :: replaceAllFuel f old nw t

/-- strings.ReplaceAll. -/
def goReplaceAll (s old nw : String) : String :=
  ⟨replaceAllFuel s.data.length old.data nw.data s.data⟩

/-! ## A backtracking matcher for the translator's anchored regexes -/

/-- One partial match: the characters consumed so far, the submatch captures
collected so far (in group order), and the unconsumed rest of the input. -/
structure MStep where
  consumed : List Char
  caps : List String
  rest : List Char
deriving DecidableEq

/-- A matcher returns every way to consume a prefix of the input, ordered by
the backtracking priority of Go's leftmost-first submatch semantics. -/
abbrev Matcher := List Char → List MStep

/-- All nonempty splits (taken, rest) where `taken` is a prefix of characters
satisfying `p`, longest (greediest) first. -/
def capSplits (p : Char → Bool) : List Char → List (List Char × List Char)
  | [] => []
  | c :: t =>
    if p c then ((capSplits p t).map fun q => (c :: q.1, q.2)) ++ [([c], t)]
    else []

/-- Case-insensitive literal matching: returns the consumed original
characters and the rest, or none. -/
def litMatch : List Char → List Char → Option (List Char × List Char)
  | [], s => some ([], s)
  | _ :: _, [] => none
  | c :: w, d :: s =>
    if upChar c = upChar d then (litMatch w s).map fun q => (d :: q.1, q.2)
    else none

/-- A case-insensitive literal. -/
def mlit (w : String) : Matcher := fun s =>
  match litMatch w.data s with
  | some q => [⟨q.1, [], q.2⟩]
  | none => []

/-- The regex \s+ (greedy). -/
def mws : Matcher := fun s =>
  (capSplits regexSpace s).map fun q => ⟨q.1, [], q.2⟩

/-- A capture group over one character class, (class+), greedy. -/
def mcap (p : Char → Bool) : Matcher := fun s =>
  (capSplits p s).map fun q => ⟨q.1, [⟨q.1⟩], q.2⟩

/-- Sequencing: every continuation of every way to match `a`, in order. -/
def mseq (a b : Matcher) : Matcher := fun s =>
  (a s).flatMap fun x =>
    (b x.rest).map fun y => ⟨x.consumed ++ y.consumed, x.caps ++ y.caps, y.rest⟩

/-- Ordered alternation: the left alternative has priority. -/
def malt (a b : Matcher) : Matcher := fun s => a s ++ b s

/-- A capturing group around a matcher: the consumed text becomes the group's
submatch, preceding the inner captures. -/
def mgroup (a : Matcher) : Matcher := fun s =>
  (a s).map fun x => ⟨x.consumed, (⟨x.consumed⟩ : String) :: x.caps, x.rest⟩

/-- A greedy optional: matching is preferred; when skipped, the capture
groups inside do not participate and contribute `skipped` (empty strings). -/
def mopt (a : Matcher) (skipped : List String) : Matcher := fun s =>
  a s ++ [⟨[], skipped, s⟩]

/-- The regex class* (greedy, possibly empty). -/
def mstar (p : Char → Bool) : Matcher := fun s =>
  ((capSplits p s).map fun q => (⟨q.1, [], q.2⟩ : MStep)) ++ [⟨[], [], s⟩]

/-- Sequencing of a list of matchers. -/
def mseqs : List Matcher → Matcher
  | [] => fun s => [⟨[], [], s⟩]
  | [a] => a
  | a :: rest => mseq a (mseqs rest)

/-- FindStringSubmatch for a regex anchored on both sides: the first
full-input match in priority order; index 0 is the whole match (the whole
input), then the capture groups. -/
def mfind (m : Matcher) (s : String) : Option (List String) :=
  match (m s.data).filter (fun x => x.rest.isEmpty) with
  | [] => none
  | x :: _ => some (s :: x.caps)

/-! ## The translator's regexes, in source order -/

/-- (?i)^SHOW\s+TABLES\s+(FROM|IN)\s+(\w+)$ -/
def showTablesFromRe : Matcher :=
  mseqs [mlit "SHOW", mws, mlit "TABLES", mws,
    mgroup (malt (mlit "FROM") (mlit "IN")), mws, mcap isWordChar]

/-- (?i)^(SHOW\s+COLUMNS\s+FROM|DESC|DESCRIBE)\s+(\w+)$ -/
def showColumnsRe : Matcher :=
  mseqs [mgroup (malt (mseqs [mlit "SHOW", mws, mlit "COLUMNS", mws, mlit "FROM"])
      (malt (mlit "DESC") (mlit "DESCRIBE"))),
    mws, mcap isWordChar]

/-- (?i)^SHOW\s+FULL\s+COLUMNS\s+FROM\s+(\w+)$ -/
def showFullColumnsRe : Matcher :=
  mseqs [mlit "SHOW", mws, mlit "FULL", mws, mlit "COLUMNS", mws, mlit "FROM",
    mws, mcap isWordChar]

/-- (?i)^SHOW\s+CREATE\s+TABLE\s+(\w+)$ -/
def showCreateTableRe : Matcher :=
  mseqs [mlit "SHOW", mws, mlit "CREATE", mws, mlit "TABLE", mws, mcap isWordChar]

/-- (?i)^SHOW\s+CREATE\s+DATABASE\s+(\w+)$ -/
def showCreateDatabaseRe : Matcher :=
  mseqs [mlit "SHOW", mws, mlit "CREATE", mws, mlit "DATABASE", mws, mcap isWordChar]

/-- (?i)^SHOW\s+(INDEX|INDEXES|KEYS)\s+FROM\s+(\w+)$ -/
def showIndexRe : Matcher :=
  mseqs [mlit "SHOW", mws,
    mgroup (malt (mlit "INDEX") (malt (mlit "INDEXES") (mlit "KEYS"))),
    mws, mlit "FROM", mws, mcap isWordChar]

/-- (?i)^SHOW\s+(GLOBAL\s+)?VARIABLES\s+LIKE\s+'([^']+)'$ -/
def showVarsLikeRe : Matcher :=
  mseqs [mlit "SHOW", mws, mopt (mgroup (mseq (mlit "GLOBAL") mws)) [""],
    mlit "VARIABLES", mws, mlit "LIKE", mws, mlit "'", mcap notQuote, mlit "'"]

/-- (?i)^SHOW\s+GRANTS\s+FOR\s+'?(\w+)'?(@'?[^']*'?)?$ -/
def showGrantsForRe : Matcher :=
  mseqs [mlit "SHOW", mws, mlit "GRANTS", mws, mlit "FOR", mws,
    mopt (mlit "'") [], mcap isWordChar, mopt (mlit "'") [],
    mopt (mgroup (mseqs [mlit "@", mopt (mlit "'") [], mstar notQuote,
      mopt (mlit "'") []])) [""]]

/-- (?i)^USE\s+(\w+)$ -/
def useDbRe : Matcher :=
  mseqs [mlit "USE", mws, mcap isWordChar]

/-! ## The translation outcome and the two dialects -/

/-- TranslationResult from translator.go: the translated query and metadata. -/
structure TranslationResult where
  Query : String := ""
  IsSpecial : Bool := false
  SpecialType : String := ""
  Args : List String := []
deriving DecidableEq

/-- DBType from db.go. -/
inductive DBType
  | MySQL
  | PostgreSQL
deriving DecidableEq

/-! ## The query texts the PostgreSQL branch produces (verbatim from source) -/

/-- Query for SHOW DATABASES (also produced by the backslash commands \l, \list). -/
def showDatabasesQuery : String :=
  "SELECT datname AS \"Database\" FROM pg_database WHERE datistemplate = false ORDER BY datname"

/-- Query for SHOW TABLES. -/
def showTablesQuery : String :=
  "SELECT tablename AS \"Tables_in_database\" \n\t\t\t\t\tFROM pg_tables \n\t\t\t\t\tWHERE schemaname = 'public' \n\t\t\t\t\tORDER BY tablename"

/-- Query for SHOW FULL TABLES. -/
def showFullTablesQuery : String :=
  "SELECT tablename AS \"Tables_in_database\", \n\t\t\t\t\t'BASE TABLE' AS \"Table_type\"\n\t\t\t\t\tFROM pg_tables \n\t\t\t\t\tWHERE schemaname = 'public' \n\t\t\t\t\tORDER BY tablename"

/-- Query template for SHOW TABLES FROM/IN db. -/
def showTablesFromQuery (dbName : String) : String :=
  "SELECT tablename AS \"Tables_in_" ++ dbName ++ "\" \n\t\t\t\t\tFROM pg_tables \n\t\t\t\t\tWHERE schemaname = 'public' \n\t\t\t\t\tORDER BY tablename"

/-- Query template for SHOW COLUMNS FROM / DESC / DESCRIBE, against the column
catalog restricted to the table, ordered by ordinal position. -/
def descColumnsQuery (tableName : String) : String :=
  "SELECT \n\t\t\t\tcolumn_name AS \"Field\",\n\t\t\t\tdata_type AS \"Type\",\n\t\t\t\tCASE WHEN is_nullable = 'YES' THEN 'YES' ELSE 'NO' END AS \"Null\",\n\t\t\t\tCASE \n\t\t\t\t\tWHEN column_default LIKE 'nextval%' THEN 'PRI'\n\t\t\t\t\tELSE ''\n\t\t\t\tEND AS \"Key\",\n\t\t\t\tcolumn_default AS \"Default\",\n\t\t\t\tCASE \n\t\t\t\t\tWHEN column_default LIKE 'nextval%' THEN 'auto_increment'\n\t\t\t\t\tELSE ''\n\t\t\t\tEND AS \"Extra\"\n\t\t\tFROM information_schema.columns \n\t\t\tWHERE table_schema = 'public' AND table_name = '" ++ tableName ++ "'\n\t\t\tORDER BY ordinal_position"

/-- Query template for SHOW FULL COLUMNS FROM. -/
def showFullColumnsQuery (tableName : String) : String :=
  "SELECT \n\t\t\t\tcolumn_name AS \"Field\",\n\t\t\t\tdata_type AS \"Type\",\n\t\t\t\tcharacter_set_name AS \"Collation\",\n\t\t\t\tCASE WHEN is_nullable = 'YES' THEN 'YES' ELSE 'NO' END AS \"Null\",\n\t\t\t\t'' AS \"Key\",\n\t\t\t\tcolumn_default AS \"Default\",\n\t\t\t\t'' AS \"Extra\",\n\t\t\t\t'select,insert,update,references' AS \"Privileges\",\n\t\t\t\t'' AS \"Comment\"\n\t\t\tFROM information_schema.columns \n\t\t\tWHERE table_schema = 'public' AND table_name = '" ++ tableName ++ "'\n\t\t\tORDER BY ordinal_position"

/-- Query template for SHOW INDEX/INDEXES/KEYS FROM. -/
def showIndexQuery (tableName : String) : String :=
  "SELECT \n\t\t\t\tschemaname AS \"Table\",\n\t\t\t\tindexname AS \"Key_name\",\n\t\t\t\tindexdef AS \"Index_definition\"\n\t\t\tFROM pg_indexes \n\t\t\tWHERE schemaname = 'public' AND tablename = '" ++ tableName ++ "'"

/-- Query for SHOW STATUS. -/
def showStatusQuery : String :=
  "SELECT name AS \"Variable_name\", setting AS \"Value\" \n\t\t\t\t\tFROM pg_settings \n\t\t\t\t\tORDER BY name \n\t\t\t\t\tLIMIT 50"

/-- Query for SHOW VARIABLES and SHOW GLOBAL VARIABLES. -/
def showVariablesQuery : String :=
  "SELECT name AS \"Variable_name\", setting AS \"Value\" \n\t\t\t\t\tFROM pg_settings \n\t\t\t\t\tORDER BY name"

/-- Query template for SHOW VARIABLES LIKE, filtering the settings catalog
pg_settings by a regex built from the MySQL wildcard pattern. -/
def showVarsLikeQuery (pat : String) : String :=
  "SELECT name AS \"Variable_name\", setting AS \"Value\" \n\t\t\t\t\tFROM pg_settings \n\t\t\t\t\tWHERE name ~ '" ++ pat ++ "'\n\t\t\t\t\tORDER BY name"

/-- Query for SHOW PROCESSLIST. -/
def showProcesslistQuery : String :=
  "SELECT \n\t\t\t\tpid AS \"Id\",\n\t\t\t\tusename AS \"User\",\n\t\t\t\tclient_addr AS \"Host\",\n\t\t\t\tdatname AS \"db\",\n\t\t\t\tstate AS \"Command\",\n\t\t\t\tEXTRACT(EPOCH FROM (now() - query_start))::int AS \"Time\",\n\t\t\t\tstate AS \"State\",\n\t\t\t\tquery AS \"Info\"\n\t\t\tFROM pg_stat_activity \n\t\t\tWHERE pid <> pg_backend_pid()"

/-- Query for SHOW GRANTS. -/
def showGrantsQuery : String :=
  "SELECT \n\t\t\t\tgrantee AS \"User\",\n\t\t\t\tprivilege_type AS \"Privilege\",\n\t\t\t\ttable_schema || '.' || table_name AS \"On\"\n\t\t\tFROM information_schema.role_table_grants \n\t\t\tWHERE grantee = current_user"

/-- Query template for SHOW GRANTS FOR user. -/
def showGrantsForQuery (userName : String) : String :=
  "SELECT \n\t\t\t\tgrantee AS \"User\",\n\t\t\t\tprivilege_type AS \"Privilege\",\n\t\t\t\ttable_schema || '.' || table_name AS \"On\"\n\t\t\tFROM information_schema.role_table_grants \n\t\t\tWHERE grantee = '" ++ userName ++ "'"

/-- Query for SHOW TABLE STATUS. -/
def showTableStatusQuery : String :=
  "SELECT \n\t\t\t\trelname AS \"Name\",\n\t\t\t\tCASE relkind WHEN 'r' THEN 'BASE TABLE' WHEN 'v' THEN 'VIEW' END AS \"Engine\",\n\t\t\t\tpg_size_pretty(pg_total_relation_size(oid)) AS \"Data_length\",\n\t\t\t\tn_live_tup AS \"Rows\"\n\t\t\tFROM pg_stat_user_tables \n\t\t\tJOIN pg_class ON relname = pg_stat_user_tables.relname\n\t\t\tWHERE schemaname = 'public'"

/-- Query for SHOW SCHEMAS. -/
def showSchemasQuery : String :=
  "SELECT schema_name AS \"Database\" \n\t\t\t\t\tFROM information_schema.schemata \n\t\t\t\t\tORDER BY schema_name"

/-- Query for SHOW TRIGGERS. -/
def showTriggersQuery : String :=
  "SELECT \n\t\t\t\ttrigger_name AS \"Trigger\",\n\t\t\t\tevent_manipulation AS \"Event\",\n\t\t\t\tevent_object_table AS \"Table\",\n\t\t\t\taction_statement AS \"Statement\",\n\t\t\t\taction_timing AS \"Timing\"\n\t\t\tFROM information_schema.triggers \n\t\t\tWHERE trigger_schema = 'public'"

/-- Query for SHOW FUNCTION STATUS and SHOW PROCEDURE STATUS. -/
def showRoutinesQuery : String :=
  "SELECT \n\t\t\t\troutine_name AS \"Name\",\n\t\t\t\troutine_type AS \"Type\",\n\t\t\t\troutine_schema AS \"Db\",\n\t\t\t\texternal_language AS \"Language\"\n\t\t\tFROM information_schema.routines \n\t\t\tWHERE routine_schema = 'public'"

/-- Query for SHOW ENGINES. -/
def showEnginesQuery : String :=
  "SELECT \n\t\t\t\t'PostgreSQL' AS \"Engine\",\n\t\t\t\t'DEFAULT' AS \"Support\",\n\t\t\t\t'PostgreSQL native storage' AS \"Comment\""

/-- Query for SHOW CHARSET and SHOW CHARACTER SET. -/
def showCharsetQuery : String :=
  "SELECT \n\t\t\t\tpg_encoding_to_char(encoding) AS \"Charset\",\n\t\t\t\tpg_encoding_to_char(encoding) AS \"Description\",\n\t\t\t\t'UTF-8' AS \"Default collation\"\n\t\t\tFROM pg_database \n\t\t\tWHERE datname = current_database()"

/-- Query for SHOW COLLATION. -/
def showCollationQuery : String :=
  "SELECT \n\t\t\t\tcollname AS \"Collation\",\n\t\t\t\t'utf8' AS \"Charset\"\n\t\t\tFROM pg_collation \n\t\t\tLIMIT 50"

/-- Query for SHOW WARNINGS and SHOW ERRORS. -/
def showWarningsQuery : String :=
  "SELECT 'Note' AS \"Level\", 0 AS \"Code\", 'PostgreSQL does not store warnings/errors like MySQL' AS \"Message\""

/-- Query for the backslash command \dt. -/
def bsListTablesQuery : String :=
  "SELECT tablename AS \"Tables\" FROM pg_tables WHERE schemaname = 'public' ORDER BY tablename"

/-- Query for the backslash command \dt+. -/
def bsListTablesSizeQuery : String :=
  "SELECT \n\t\t\t\ttablename AS \"Name\",\n\t\t\t\tpg_size_pretty(pg_total_relation_size(schemaname || '.' || tablename)) AS \"Size\"\n\t\t\tFROM pg_tables \n\t\t\tWHERE schemaname = 'public' \n\t\t\tORDER BY tablename"

/-- Query template for the backslash command \d table. -/
def bsDescribeTableQuery (tableName : String) : String :=
  "SELECT \n\t\t\t\t\tcolumn_name AS \"Column\",\n\t\t\t\t\tdata_type AS \"Type\",\n\t\t\t\t\tCASE WHEN is_nullable = 'YES' THEN 'YES' ELSE 'NO' END AS \"Nullable\"\n\t\t\t\tFROM information_schema.columns \n\t\t\t\tWHERE table_schema = 'public' AND table_name = '" ++ tableName ++ "'\n\t\t\t\tORDER BY ordinal_position"

/-- Query for the backslash command \d with no argument. -/
def bsListRelationsQuery : String :=
  "SELECT tablename AS \"Name\", 'table' AS \"Type\" FROM pg_tables WHERE schemaname = 'public'\n\t\t\t\t\tUNION ALL\n\t\t\t\t\tSELECT viewname AS \"Name\", 'view' AS \"Type\" FROM pg_views WHERE schemaname = 'public'\n\t\t\t\t\tORDER BY \"Name\""

/-- Query for the backslash command \di. -/
def bsListIndexesQuery : String :=
  "SELECT indexname AS \"Index\", tablename AS \"Table\" FROM pg_indexes WHERE schemaname = 'public'"

/-- Query for the backslash command \dv. -/
def bsListViewsQuery : String :=
  "SELECT viewname AS \"View\" FROM pg_views WHERE schemaname = 'public'"

/-- Query for the backslash command \df. -/
def bsListFunctionsQuery : String :=
  "SELECT routine_name AS \"Function\", data_type AS \"Return Type\" \n\t\t\t\t\tFROM information_schema.routines \n\t\t\t\t\tWHERE routine_schema = 'public' AND routine_type = 'FUNCTION'"

/-- Query for the backslash command \du. -/
def bsListRolesQuery : String :=
  "SELECT rolname AS \"Role\", \n\t\t\t\t\tCASE WHEN rolsuper THEN 'Superuser' ELSE '' END AS \"Attributes\"\n\t\t\t\t\tFROM pg_roles ORDER BY rolname"

/-- Query for the backslash command \dn. -/
def bsListSchemasQuery : String :=
  "SELECT schema_name AS \"Schema\" FROM information_schema.schemata ORDER BY schema_name"

/-- The wildcard rewriting applied to the SHOW VARIABLES LIKE pattern in
translator.go: % to %%, then _ to ., then %% to .* . -/
def mysqlPatternToRegex (pat : String) : String :=
  goReplaceAll (goReplaceAll (goReplaceAll pat "%" "%%") "_" ".") "%%" ".*"

/-- The specification's wildcard translation, stated from the spec's words:
each % becomes the match-many pattern .* and each _ becomes the match-one
pattern . ; every other character is kept unchanged. -/
def specPatternRewrite (pat : String) : String :=
  ⟨pat.data.flatMap (fun c => if c = '%' then ['.', '*'] else if c = '_' then ['.'] else [c])⟩

/-! ## The translator -/

/-- handleHelpCommands from translator.go: the four exact help triggers. -/
def handleHelpCommands (input : String) : Option TranslationResult :=
  if goToUpper (goTrimSpace input) = "SHOW --HELP" then
    some { IsSpecial := true, SpecialType := "show_help" }
  else if goToUpper (goTrimSpace input) = "SHOW CREATE --HELP" then
    some { IsSpecial := true, SpecialType := "show_create_help" }
  else if goToUpper (goTrimSpace input) = "SHOW TABLES --HELP" then
    some { IsSpecial := true, SpecialType := "show_tables_help" }
  else if goToUpper (goTrimSpace input) = "SHOW COLUMNS --HELP" ∨
      goToUpper (goTrimSpace input) = "DESC --HELP" ∨
      goToUpper (goTrimSpace input) = "DESCRIBE --HELP" then
    some { IsSpecial := true, SpecialType := "show_columns_help" }
  else
    none

/-- translateBackslashCommand from translator.go: dispatch on the first
whitespace-separated token. -/
def translateBackslashCommand (rawInput : String) : Except String TranslationResult :=
  if (goFields (goTrimSpace rawInput)).headD "" = "\\l" ∨ (goFields (goTrimSpace rawInput)).headD "" = "\\list" then .ok { Query := showDatabasesQuery }
  else if (goFields (goTrimSpace rawInput)).headD "" = "\\dt" then .ok { Query := bsListTablesQuery }
  else if (goFields (goTrimSpace rawInput)).headD "" = "\\dt+" then .ok { Query := bsListTablesSizeQuery }
  else if (goFields (goTrimSpace rawInput)).headD "" = "\\d" then
    if (goFields (goTrimSpace rawInput)).length > 1 then .ok { Query := bsDescribeTableQuery ((goFields (goTrimSpace rawInput)).getD 1 "") }
    else .ok { Query := bsListRelationsQuery }
  else if (goFields (goTrimSpace rawInput)).headD "" = "\\di" then .ok { Query := bsListIndexesQuery }
  else if (goFields (goTrimSpace rawInput)).headD "" = "\\dv" then .ok { Query := bsListViewsQuery }
  else if (goFields (goTrimSpace rawInput)).headD "" = "\\df" then .ok { Query := bsListFunctionsQuery }
  else if (goFields (goTrimSpace rawInput)).headD "" = "\\du" then .ok { Query := bsListRolesQuery }
  else if (goFields (goTrimSpace rawInput)).headD "" = "\\dn" then .ok { Query := bsListSchemasQuery }
  else if (goFields (goTrimSpace rawInput)).headD "" = "\\c" ∨ (goFields (goTrimSpace rawInput)).headD "" = "\\connect" then
    if (goFields (goTrimSpace rawInput)).length > 1 then
      .ok { IsSpecial := true, SpecialType := "use_database", Args := [(goFields (goTrimSpace rawInput)).getD 1 ""] }
    else .error "usage: \\c database_name"
  else if (goFields (goTrimSpace rawInput)).headD "" = "\\q" ∨ (goFields (goTrimSpace rawInput)).headD "" = "\\quit" then .ok { IsSpecial := true, SpecialType := "quit" }
  else if (goFields (goTrimSpace rawInput)).headD "" = "\\?" ∨ (goFields (goTrimSpace rawInput)).headD "" = "\\help" then .ok { IsSpecial := true, SpecialType := "help" }
  else if (goFields (goTrimSpace rawInput)).headD "" = "\\x" then .ok { IsSpecial := true, SpecialType := "toggle_expanded" }
  else .error ("unknown command: " ++ (goFields (goTrimSpace rawInput)).headD "")

/-- translateForPostgres from translator.go: the ordered rule table, evaluated
top to bottom, first match wins; input arrives already TrimSpace-d. -/
def translateForPostgres (input : String) : Except String TranslationResult :=
  if handleHelpCommands (goTrimSuffixSemi input) ≠ none then
    .ok ((handleHelpCommands (goTrimSuffixSemi input)).getD {})
  else if goToUpper (goTrimSuffixSemi input) = "SHOW DATABASES" then .ok { Query := showDatabasesQuery }
  else if goToUpper (goTrimSuffixSemi input) = "SHOW TABLES" then .ok { Query := showTablesQuery }
  else if goToUpper (goTrimSuffixSemi input) = "SHOW FULL TABLES" then .ok { Query := showFullTablesQuery }
  else if mfind showTablesFromRe (goTrimSuffixSemi input) ≠ none then
    .ok { Query := showTablesFromQuery (((mfind showTablesFromRe (goTrimSuffixSemi input)).getD []).getD 2 ""),
          IsSpecial := true, SpecialType := "cross_db_query",
          Args := [((mfind showTablesFromRe (goTrimSuffixSemi input)).getD []).getD 2 ""] }
  else if mfind showColumnsRe (goTrimSuffixSemi input) ≠ none then
    .ok { Query := descColumnsQuery (((mfind showColumnsRe (goTrimSuffixSemi input)).getD []).getD 2 "") }
  else if mfind showFullColumnsRe (goTrimSuffixSemi input) ≠ none then
    .ok { Query := showFullColumnsQuery (((mfind showFullColumnsRe (goTrimSuffixSemi input)).getD []).getD 1 "") }
  else if mfind showCreateTableRe (goTrimSuffixSemi input) ≠ none then
    .ok { IsSpecial := true, SpecialType := "show_create_table",
          Args := [((mfind showCreateTableRe (goTrimSuffixSemi input)).getD []).getD 1 ""] }
  else if mfind showCreateDatabaseRe (goTrimSuffixSemi input) ≠ none then
    .ok { IsSpecial := true, SpecialType := "show_create_database",
          Args := [((mfind showCreateDatabaseRe (goTrimSuffixSemi input)).getD []).getD 1 ""] }
  else if mfind showIndexRe (goTrimSuffixSemi input) ≠ none then
    .ok { Query := showIndexQuery (((mfind showIndexRe (goTrimSuffixSemi input)).getD []).getD 2 "") }
  else if goToUpper (goTrimSuffixSemi input) = "SHOW STATUS" then .ok { Query := showStatusQuery }
  else if goToUpper (goTrimSuffixSemi input) = "SHOW VARIABLES" ∨ goToUpper (goTrimSuffixSemi input) = "SHOW GLOBAL VARIABLES" then
    .ok { Query := showVariablesQuery }
  else if mfind showVarsLikeRe (goTrimSuffixSemi input) ≠ none then
    .ok { Query := showVarsLikeQuery (mysqlPatternToRegex
      (((mfind showVarsLikeRe (goTrimSuffixSemi input)).getD []).getD 2 "")) }
  else if goToUpper (goTrimSuffixSemi input) = "SHOW PROCESSLIST" ∨ goToUpper (goTrimSuffixSemi input) = "SHOW FULL PROCESSLIST" then
    .ok { Query := showProcesslistQuery }
  else if goToUpper (goTrimSuffixSemi input) = "SHOW GRANTS" then .ok { Query := showGrantsQuery }
  else if mfind showGrantsForRe (goTrimSuffixSemi input) ≠ none then
    .ok { Query := showGrantsForQuery (((mfind showGrantsForRe (goTrimSuffixSemi input)).getD []).getD 1 "") }
  else if goToUpper (goTrimSuffixSemi input) = "SHOW TABLE STATUS" then .ok { Query := showTableStatusQuery }
  else if goToUpper (goTrimSuffixSemi input) = "SHOW SCHEMAS" then .ok { Query := showSchemasQuery }
  else if goToUpper (goTrimSuffixSemi input) = "SHOW TRIGGERS" then .ok { Query := showTriggersQuery }
  else if goToUpper (goTrimSuffixSemi input) = "SHOW FUNCTION STATUS" ∨ goToUpper (goTrimSuffixSemi input) = "SHOW PROCEDURE STATUS" then
    .ok { Query := showRoutinesQuery }
  else if mfind useDbRe (goTrimSuffixSemi input) ≠ none then
    .ok { IsSpecial := true, SpecialType := "use_database",
          Args := [((mfind useDbRe (goTrimSuffixSemi input)).getD []).getD 1 ""] }
  else if goToUpper (goTrimSuffixSemi input) = "SHOW ENGINES" then .ok { Query := showEnginesQuery }
  else if goToUpper (goTrimSuffixSemi input) = "SHOW CHARSET" ∨ goToUpper (goTrimSuffixSemi input) = "SHOW CHARACTER SET" then
    .ok { Query := showCharsetQuery }
  else if goToUpper (goTrimSuffixSemi input) = "SHOW COLLATION" then .ok { Query := showCollationQuery }
  else if goToUpper (goTrimSuffixSemi input) = "SHOW WARNINGS" ∨ goToUpper (goTrimSuffixSemi input) = "SHOW ERRORS" then
    .ok { Query := showWarningsQuery }
  else if goToUpper (goTrimSuffixSemi input) = "SELECT DATABASE()" then
    .ok { Query := "SELECT current_database() AS \"database()\"" }
  else if goToUpper (goTrimSuffixSemi input) = "SELECT VERSION()" then
    .ok { Query := "SELECT version() AS \"version()\"" }
  else if goToUpper (goTrimSuffixSemi input) = "SELECT USER()" ∨ goToUpper (goTrimSuffixSemi input) = "SELECT CURRENT_USER()" then
    .ok { Query := "SELECT current_user AS \"user()\"" }
  else if goToUpper (goTrimSuffixSemi input) = "SELECT NOW()" then
    .ok { Query := "SELECT now() AS \"now()\"" }
  else if goHasPre "\\" input then translateBackslashCommand input
  else .ok { Query := input }

/-- Translate from translator.go: trim, return unchanged for the native MySQL
dialect, translate for PostgreSQL. -/
def Translate (dbType : DBType) (rawInput : String) : Except String TranslationResult :=
  if dbType = DBType.MySQL then .ok { Query := goTrimSpace rawInput }
  else translateForPostgres (goTrimSpace rawInput)

/-! ## The database-switch path (db.go SetDatabase, client.go use_database) -/

/-- Config from db.go, reduced to the field the switch path touches. -/
structure DbConfig where
  Database : String
deriving DecidableEq

/-- Connection from db.go: its config and whether its handle is usable
(Close makes it unusable). -/
structure DbConn where
  Config : DbConfig
  connOpen : Bool
deriving DecidableEq

/-- SetDatabase from db.go: overwrite Config.Database, close the current
handle, then reconnect with the new config; `connect` models db.New succeeding
or failing. Returns the connection state and an error flag. -/
def SetDatabase (connect : DbConfig → Bool) (c : DbConn) (dbName : String) :
    DbConn × Bool :=
  if connect { c.Config with Database := dbName } then
    ({ Config := { c.Config with Database := dbName }, connOpen := true }, false)
  else ({ Config := { c.Config with Database := dbName }, connOpen := false }, true)

/-- The session state the client owns: its connection and its own config's
active-database name (shown in the prompt). -/
structure ClientState where
  conn : DbConn
  configDatabase : String
deriving DecidableEq

/-- The use_database arm of handleSpecialCommand from client.go: require an
argument, call SetDatabase, and update the client's config only on success.
Returns the new session state and an error flag. -/
def clientUseDatabase (connect : DbConfig → Bool) (st : ClientState)
    (args : List String) : ClientState × Bool :=
  match args with
  | [] => (st, true)
  | dbName :: _ =>
    if (SetDatabase connect st.conn dbName).2 then
      ({ st with conn := (SetDatabase connect st.conn dbName).1 }, true)
    else
      ({ conn := (SetDatabase connect st.conn dbName).1, configDatabase := dbName }, false)

instance : DecidableEq (Except String TranslationResult) :=
  fun x y => match x, y with
  | .ok a, .ok b =>
    if h : a = b then .isTrue (congrArg Except.ok h)
    else .isFalse (fun hc => h (Except.ok.inj hc))
  | .error a, .error b =>
    if h : a = b then .isTrue (congrArg Except.error h)
    else .isFalse (fun hc => h (Except.error.inj hc))
  | .ok _, .error _ => .isFalse (fun hc => Except.noConfusion hc)
  | .error _, .ok _ => .isFalse (fun hc => Except.noConfusion hc)

/-! ## Shape lemmas: what each stage of the translator can produce -/

/-- The help special-action kinds. -/
def helpKinds : List String :=
  ["show_help", "show_create_help", "show_tables_help", "show_columns_help"]

/-- The six upper-cased phrases that trigger a help overlay. -/
def helpTriggers : List String :=
  ["SHOW --HELP", "SHOW CREATE --HELP", "SHOW TABLES --HELP",
   "SHOW COLUMNS --HELP", "DESC --HELP", "DESCRIBE --HELP"]

/-- The first tokens translateBackslashCommand recognizes. -/
def backslashCmds : List String :=
  ["\\l", "\\list", "\\dt", "\\dt+", "\\d", "\\di", "\\dv", "\\df", "\\du",
   "\\dn", "\\c", "\\connect", "\\q", "\\quit", "\\?", "\\help", "\\x"]

lemma handleHelp_shape (s : String) (r : TranslationResult)
    (h : handleHelpCommands s = some r) :
    r.Query = "" ∧ r.IsSpecial = true ∧ r.Args = [] ∧ r.SpecialType ∈ helpKinds ∧
      goToUpper (goTrimSpace s) ∈ helpTriggers := by
  unfold handleHelpCommands at h
  repeat' split at h
  all_goals
    first
    | (injection h with h; subst h; simp_all [helpKinds, helpTriggers])
    | simp_all

lemma backslash_ok_shape (s : String) (r : TranslationResult)
    (h : translateBackslashCommand s = .ok r) :
    (r.IsSpecial = true → r.Query = "" ∧ r.SpecialType ∉ helpKinds ∧
      r.SpecialType ≠ "cross_db_query") ∧
    (r.IsSpecial = false → r.SpecialType = "" ∧ r.Args = []) := by
  unfold translateBackslashCommand at h
  by_cases h1 : (goFields (goTrimSpace s)).headD "" = "\\l" ∨ (goFields (goTrimSpace s)).headD "" = "\\list"
  · rw [if_pos h1] at h
    injection h with h; subst h; simp [helpKinds]
  rw [if_neg h1] at h
  by_cases h2 : (goFields (goTrimSpace s)).headD "" = "\\dt"
  · rw [if_pos h2] at h
    injection h with h; subst h; simp [helpKinds]
  rw [if_neg h2] at h
  by_cases h3 : (goFields (goTrimSpace s)).headD "" = "\\dt+"
  · rw [if_pos h3] at h
    injection h with h; subst h; simp [helpKinds]
  rw [if_neg h3] at h
  by_cases h4 : (goFields (goTrimSpace s)).headD "" = "\\d"
  · rw [if_pos h4] at h
    by_cases h4b : (goFields (goTrimSpace s)).length > 1
    · rw [if_pos h4b] at h
      injection h with h; subst h; simp [helpKinds]
    · rw [if_neg h4b] at h
      injection h with h; subst h; simp [helpKinds]
  rw [if_neg h4] at h
  by_cases h5 : (goFields (goTrimSpace s)).headD "" = "\\di"
  · rw [if_pos h5] at h
    injection h with h; subst h; simp [helpKinds]
  rw [if_neg h5] at h
  by_cases h6 : (goFields (goTrimSpace s)).headD "" = "\\dv"
  · rw [if_pos h6] at h
    injection h with h; subst h; simp [helpKinds]
  rw [if_neg h6] at h
  by_cases h7 : (goFields (goTrimSpace s)).headD "" = "\\df"
  · rw [if_pos h7] at h
    injection h with h; subst h; simp [helpKinds]
  rw [if_neg h7] at h
  by_cases h8 : (goFields (goTrimSpace s)).headD "" = "\\du"
  · rw [if_pos h8] at h
    injection h with h; subst h; simp [helpKinds]
  rw [if_neg h8] at h
  by_cases h9 : (goFields (goTrimSpace s)).headD "" = "\\dn"
  · rw [if_pos h9] at h
    injection h with h; subst h; simp [helpKinds]
  rw [if_neg h9] at h
  by_cases h10 : (goFields (goTrimSpace s)).headD "" = "\\c" ∨ (goFields (goTrimSpace s)).headD "" = "\\connect"
  · rw [if_pos h10] at h
    by_cases h10b : (goFields (goTrimSpace s)).length > 1
    · rw [if_pos h10b] at h
      injection h with h; subst h; simp [helpKinds]
    · rw [if_neg h10b] at h
      exact absurd h (by simp)
  rw [if_neg h10] at h
  by_cases h11 : (goFields (goTrimSpace s)).headD "" = "\\q" ∨ (goFields (goTrimSpace s)).headD "" = "\\quit"
  · rw [if_pos h11] at h
    injection h with h; subst h; simp [helpKinds]
  rw [if_neg h11] at h
  by_cases h12 : (goFields (goTrimSpace s)).headD "" = "\\?" ∨ (goFields (goTrimSpace s)).headD "" = "\\help"
  · rw [if_pos h12] at h
    injection h with h; subst h; simp [helpKinds]
  rw [if_neg h12] at h
  by_cases h13 : (goFields (goTrimSpace s)).headD "" = "\\x"
  · rw [if_pos h13] at h
    injection h with h; subst h; simp [helpKinds]
  rw [if_neg h13] at h
  exact absurd h (by simp)

lemma backslash_error_shape (s e : String)
    (h : translateBackslashCommand s = .error e) :
    ((goFields (goTrimSpace s)).headD "" ∉ backslashCmds ∧
      e = "unknown command: " ++ (goFields (goTrimSpace s)).headD "") ∨
    (((goFields (goTrimSpace s)).headD "" = "\\c" ∨
        (goFields (goTrimSpace s)).headD "" = "\\connect") ∧
      (goFields (goTrimSpace s)).length ≤ 1 ∧ e = "usage: \\c database_name") := by
  unfold translateBackslashCommand at h
  by_cases h1 : (goFields (goTrimSpace s)).headD "" = "\\l" ∨ (goFields (goTrimSpace s)).headD "" = "\\list"
  · rw [if_pos h1] at h
    exact absurd h (by simp)
  rw [if_neg h1] at h
  by_cases h2 : (goFields (goTrimSpace s)).headD "" = "\\dt"
  · rw [if_pos h2] at h
    exact absurd h (by simp)
  rw [if_neg h2] at h
  by_cases h3 : (goFields (goTrimSpace s)).headD "" = "\\dt+"
  · rw [if_pos h3] at h
    exact absurd h (by simp)
  rw [if_neg h3] at h
  by_cases h4 : (goFields (goTrimSpace s)).headD "" = "\\d"
  · rw [if_pos h4] at h
    by_cases h4b : (goFields (goTrimSpace s)).length > 1
    · rw [if_pos h4b] at h
      exact absurd h (by simp)
    · rw [if_neg h4b] at h
      exact absurd h (by simp)
  rw [if_neg h4] at h
  by_cases h5 : (goFields (goTrimSpace s)).headD "" = "\\di"
  · rw [if_pos h5] at h
    exact absurd h (by simp)
  rw [if_neg h5] at h
  by_cases h6 : (goFields (goTrimSpace s)).headD "" = "\\dv"
  · rw [if_pos h6] at h
    exact absurd h (by simp)
  rw [if_neg h6] at h
  by_cases h7 : (goFields (goTrimSpace s)).headD "" = "\\df"
  · rw [if_pos h7] at h
    exact absurd h (by simp)
  rw [if_neg h7] at h
  by_cases h8 : (goFields (goTrimSpace s)).headD "" = "\\du"
  · rw [if_pos h8] at h
    exact absurd h (by simp)
  rw [if_neg h8] at h
  by_cases h9 : (goFields (goTrimSpace s)).headD "" = "\\dn"
  · rw [if_pos h9] at h
    exact absurd h (by simp)
  rw [if_neg h9] at h
  by_cases h10 : (goFields (goTrimSpace s)).headD "" = "\\c" ∨ (goFields (goTrimSpace s)).headD "" = "\\connect"
  · rw [if_pos h10] at h
    by_cases h10b : (goFields (goTrimSpace s)).length > 1
    · rw [if_pos h10b] at h
      exact absurd h (by simp)
    · rw [if_neg h10b] at h
      injection h with h; subst h; exact Or.inr ⟨h10, by omega, rfl⟩
  rw [if_neg h10] at h
  by_cases h11 : (goFields (goTrimSpace s)).headD "" = "\\q" ∨ (goFields (goTrimSpace s)).headD "" = "\\quit"
  · rw [if_pos h11] at h
    exact absurd h (by simp)
  rw [if_neg h11] at h
  by_cases h12 : (goFields (goTrimSpace s)).headD "" = "\\?" ∨ (goFields (goTrimSpace s)).headD "" = "\\help"
  · rw [if_pos h12] at h
    exact absurd h (by simp)
  rw [if_neg h12] at h
  by_cases h13 : (goFields (goTrimSpace s)).headD "" = "\\x"
  · rw [if_pos h13] at h
    exact absurd h (by simp)
  rw [if_neg h13] at h
  injection h with h
  subst h
  refine Or.inl ⟨?_, rfl⟩
  simp only [backslashCmds, List.mem_cons, List.not_mem_nil, or_false]
  push_neg
  refine ⟨?_, ?_, ?_, ?_, ?_, ?_, ?_, ?_, ?_, ?_, ?_, ?_, ?_, ?_, ?_, ?_, ?_⟩ <;> tauto

lemma pg_shape (s : String) (r : TranslationResult)
    (h : translateForPostgres s = .ok r) :
    (r.IsSpecial = true → r.SpecialType = "cross_db_query" ∨ r.Query = "") ∧
    (r.IsSpecial = false → r.SpecialType = "" ∧ r.Args = []) ∧
    (r.SpecialType ∈ helpKinds →
      goToUpper (goTrimSpace (goTrimSuffixSemi s)) ∈ helpTriggers ∧
      r.Query = "" ∧ r.Args = [] ∧ r.IsSpecial = true) := by
  unfold translateForPostgres at h
  by_cases h1 : handleHelpCommands (goTrimSuffixSemi s) ≠ none
  · rw [if_pos h1] at h
    obtain ⟨res, hres⟩ := Option.ne_none_iff_exists'.mp h1
    have hs := handleHelp_shape _ _ hres
    injection h with h
    rw [hres] at h
    simp only [Option.getD_some] at h
    subst h
    refine ⟨fun _ => Or.inr hs.1, fun hf => by simp [hs.2.1] at hf,
      fun _ => ⟨hs.2.2.2.2, hs.1, hs.2.2.1, hs.2.1⟩⟩
  rw [if_neg h1] at h
  by_cases h2 : goToUpper (goTrimSuffixSemi s) = "SHOW DATABASES"
  · rw [if_pos h2] at h
    injection h with h; subst h;
    exact ⟨by simp, by simp, fun hk => absurd hk (show ¬("" ∈ helpKinds) by decide)⟩
  rw [if_neg h2] at h
  by_cases h3 : goToUpper (goTrimSuffixSemi s) = "SHOW TABLES"
  · rw [if_pos h3] at h
    injection h with h; subst h;
    exact ⟨by simp, by simp, fun hk => absurd hk (show ¬("" ∈ helpKinds) by decide)⟩
  rw [if_neg h3] at h
  by_cases h4 : goToUpper (goTrimSuffixSemi s) = "SHOW FULL TABLES"
  · rw [if_pos h4] at h
    injection h with h; subst h;
    exact ⟨by simp, by simp, fun hk => absurd hk (show ¬("" ∈ helpKinds) by decide)⟩
  rw [if_neg h4] at h
  by_cases h5 : mfind showTablesFromRe (goTrimSuffixSemi s) ≠ none
  · rw [if_pos h5] at h
    injection h with h; subst h;
    exact ⟨by simp, by simp, fun hk => absurd hk (show ¬("cross_db_query" ∈ helpKinds) by decide)⟩
  rw [if_neg h5] at h
  by_cases h6 : mfind showColumnsRe (goTrimSuffixSemi s) ≠ none
  · rw [if_pos h6] at h
    injection h with h; subst h;
    exact ⟨by simp, by simp, fun hk => absurd hk (show ¬("" ∈ helpKinds) by decide)⟩
  rw [if_neg h6] at h
  by_cases h7 : mfind showFullColumnsRe (goTrimSuffixSemi s) ≠ none
  · rw [if_pos h7] at h
    injection h with h; subst h;
    exact ⟨by simp, by simp, fun hk => absurd hk (show ¬("" ∈ helpKinds) by decide)⟩
  rw [if_neg h7] at h
  by_cases h8 : mfind showCreateTableRe (goTrimSuffixSemi s) ≠ none
  · rw [if_pos h8] at h
    injection h with h; subst h;
    exact ⟨by simp, by simp, fun hk => absurd hk (show ¬("show_create_table" ∈ helpKinds) by decide)⟩
  rw [if_neg h8] at h
  by_cases h9 : mfind showCreateDatabaseRe (goTrimSuffixSemi s) ≠ none
  · rw [if_pos h9] at h
    injection h with h; subst h;
    exact ⟨by simp, by simp, fun hk => absurd hk (show ¬("show_create_database" ∈ helpKinds) by decide)⟩
  rw [if_neg h9] at h
  by_cases h10 : mfind showIndexRe (goTrimSuffixSemi s) ≠ none
  · rw [if_pos h10] at h
    injection h with h; subst h;
    exact ⟨by simp, by simp, fun hk => absurd hk (show ¬("" ∈ helpKinds) by decide)⟩
  rw [if_neg h10] at h
  by_cases h11 : goToUpper (goTrimSuffixSemi s) = "SHOW STATUS"
  · rw [if_pos h11] at h
    injection h with h; subst h;
    exact ⟨by simp, by simp, fun hk => absurd hk (show ¬("" ∈ helpKinds) by decide)⟩
  rw [if_neg h11] at h
  by_cases h12 : goToUpper (goTrimSuffixSemi s) = "SHOW VARIABLES" ∨ goToUpper (goTrimSuffixSemi s) = "SHOW GLOBAL VARIABLES"
  · rw [if_pos h12] at h
    injection h with h; subst h;
    exact ⟨by simp, by simp, fun hk => absurd hk (show ¬("" ∈ helpKinds) by decide)⟩
  rw [if_neg h12] at h
  by_cases h13 : mfind showVarsLikeRe (goTrimSuffixSemi s) ≠ none
  · rw [if_pos h13] at h
    injection h with h; subst h;
    exact ⟨by simp, by simp, fun hk => absurd hk (show ¬("" ∈ helpKinds) by decide)⟩
  rw [if_neg h13] at h
  by_cases h14 : goToUpper (goTrimSuffixSemi s) = "SHOW PROCESSLIST" ∨ goToUpper (goTrimSuffixSemi s) = "SHOW FULL PROCESSLIST"
  · rw [if_pos h14] at h
    injection h with h; subst h;
    exact ⟨by simp, by simp, fun hk => absurd hk (show ¬("" ∈ helpKinds) by decide)⟩
  rw [if_neg h14] at h
  by_cases h15 : goToUpper (goTrimSuffixSemi s) = "SHOW GRANTS"
  · rw [if_pos h15] at h
    injection h with h; subst h;
    exact ⟨by simp, by simp, fun hk => absurd hk (show ¬("" ∈ helpKinds) by decide)⟩
  rw [if_neg h15] at h
  by_cases h16 : mfind showGrantsForRe (goTrimSuffixSemi s) ≠ none
  · rw [if_pos h16] at h
    injection h with h; subst h;
    exact ⟨by simp, by simp, fun hk => absurd hk (show ¬("" ∈ helpKinds) by decide)⟩
  rw [if_neg h16] at h
  by_cases h17 : goToUpper (goTrimSuffixSemi s) = "SHOW TABLE STATUS"
  · rw [if_pos h17] at h
    injection h with h; subst h;
    exact ⟨by simp, by simp, fun hk => absurd hk (show ¬("" ∈ helpKinds) by decide)⟩
  rw [if_neg h17] at h
  by_cases h18 : goToUpper (goTrimSuffixSemi s) = "SHOW SCHEMAS"
  · rw [if_pos h18] at h
    injection h with h; subst h;
    exact ⟨by simp, by simp, fun hk => absurd hk (show ¬("" ∈ helpKinds) by decide)⟩
  rw [if_neg h18] at h
  by_cases h19 : goToUpper (goTrimSuffixSemi s) = "SHOW TRIGGERS"
  · rw [if_pos h19] at h
    injection h with h; subst h;
    exact ⟨by simp, by simp, fun hk => absurd hk (show ¬("" ∈ helpKinds) by decide)⟩
  rw [if_neg h19] at h
  by_cases h20 : goToUpper (goTrimSuffixSemi s) = "SHOW FUNCTION STATUS" ∨ goToUpper (goTrimSuffixSemi s) = "SHOW PROCEDURE STATUS"
  · rw [if_pos h20] at h
    injection h with h; subst h;
    exact ⟨by simp, by simp, fun hk => absurd hk (show ¬("" ∈ helpKinds) by decide)⟩
  rw [if_neg h20] at h
  by_cases h21 : mfind useDbRe (goTrimSuffixSemi s) ≠ none
  · rw [if_pos h21] at h
    injection h with h; subst h;
    exact ⟨by simp, by simp, fun hk => absurd hk (show ¬("use_database" ∈ helpKinds) by decide)⟩
  rw [if_neg h21] at h
  by_cases h22 : goToUpper (goTrimSuffixSemi s) = "SHOW ENGINES"
  · rw [if_pos h22] at h
    injection h with h; subst h;
    exact ⟨by simp, by simp, fun hk => absurd hk (show ¬("" ∈ helpKinds) by decide)⟩
  rw [if_neg h22] at h
  by_cases h23 : goToUpper (goTrimSuffixSemi s) = "SHOW CHARSET" ∨ goToUpper (goTrimSuffixSemi s) = "SHOW CHARACTER SET"
  · rw [if_pos h23] at h
    injection h with h; subst h;
    exact ⟨by simp, by simp, fun hk => absurd hk (show ¬("" ∈ helpKinds) by decide)⟩
  rw [if_neg h23] at h
  by_cases h24 : goToUpper (goTrimSuffixSemi s) = "SHOW COLLATION"
  · rw [if_pos h24] at h
    injection h with h; subst h;
    exact ⟨by simp, by simp, fun hk => absurd hk (show ¬("" ∈ helpKinds) by decide)⟩
  rw [if_neg h24] at h
  by_cases h25 : goToUpper (goTrimSuffixSemi s) = "SHOW WARNINGS" ∨ goToUpper (goTrimSuffixSemi s) = "SHOW ERRORS"
  · rw [if_pos h25] at h
    injection h with h; subst h;
    exact ⟨by simp, by simp, fun hk => absurd hk (show ¬("" ∈ helpKinds) by decide)⟩
  rw [if_neg h25] at h
  by_cases h26 : goToUpper (goTrimSuffixSemi s) = "SELECT DATABASE()"
  · rw [if_pos h26] at h
    injection h with h; subst h;
    exact ⟨by simp, by simp, fun hk => absurd hk (show ¬("" ∈ helpKinds) by decide)⟩
  rw [if_neg h26] at h
  by_cases h27 : goToUpper (goTrimSuffixSemi s) = "SELECT VERSION()"
  · rw [if_pos h27] at h
    injection h with h; subst h;
    exact ⟨by simp, by simp, fun hk => absurd hk (show ¬("" ∈ helpKinds) by decide)⟩
  rw [if_neg h27] at h
  by_cases h28 : goToUpper (goTrimSuffixSemi s) = "SELECT USER()" ∨ goToUpper (goTrimSuffixSemi s) = "SELECT CURRENT_USER()"
  · rw [if_pos h28] at h
    injection h with h; subst h;
    exact ⟨by simp, by simp, fun hk => absurd hk (show ¬("" ∈ helpKinds) by decide)⟩
  rw [if_neg h28] at h
  by_cases h29 : goToUpper (goTrimSuffixSemi s) = "SELECT NOW()"
  · rw [if_pos h29] at h
    injection h with h; subst h;
    exact ⟨by simp, by simp, fun hk => absurd hk (show ¬("" ∈ helpKinds) by decide)⟩
  rw [if_neg h29] at h
  by_cases h30 : goHasPre "\\" s = true
  · rw [if_pos h30] at h
    have hb := backslash_ok_shape _ _ h
    refine ⟨fun ht => Or.inr (hb.1 ht).1, hb.2, fun hk => ?_⟩
    by_cases hir : r.IsSpecial = true
    · exact absurd hk ((hb.1 hir).2.1)
    · have hq := (hb.2 (by revert hir; cases r.IsSpecial <;> simp)).1
      rw [hq] at hk
      exact absurd hk (by simp [helpKinds])
  rw [if_neg h30] at h
  injection h with h; subst h;
    exact ⟨by simp, by simp, fun hk => absurd hk (show ¬("" ∈ helpKinds) by decide)⟩

lemma pg_error (s e : String) (h : translateForPostgres s = .error e) :
    goHasPre "\\" s = true ∧ translateBackslashCommand s = .error e := by
  unfold translateForPostgres at h
  by_cases h1 : handleHelpCommands (goTrimSuffixSemi s) ≠ none
  · rw [if_pos h1] at h
    exact absurd h (by simp)
  rw [if_neg h1] at h
  by_cases h2 : goToUpper (goTrimSuffixSemi s) = "SHOW DATABASES"
  · rw [if_pos h2] at h
    exact absurd h (by simp)
  rw [if_neg h2] at h
  by_cases h3 : goToUpper (goTrimSuffixSemi s) = "SHOW TABLES"
  · rw [if_pos h3] at h
    exact absurd h (by simp)
  rw [if_neg h3] at h
  by_cases h4 : goToUpper (goTrimSuffixSemi s) = "SHOW FULL TABLES"
  · rw [if_pos h4] at h
    exact absurd h (by simp)
  rw [if_neg h4] at h
  by_cases h5 : mfind showTablesFromRe (goTrimSuffixSemi s) ≠ none
  · rw [if_pos h5] at h
    exact absurd h (by simp)
  rw [if_neg h5] at h
  by_cases h6 : mfind showColumnsRe (goTrimSuffixSemi s) ≠ none
  · rw [if_pos h6] at h
    exact absurd h (by simp)
  rw [if_neg h6] at h
  by_cases h7 : mfind showFullColumnsRe (goTrimSuffixSemi s) ≠ none
  · rw [if_pos h7] at h
    exact absurd h (by simp)
  rw [if_neg h7] at h
  by_cases h8 : mfind showCreateTableRe (goTrimSuffixSemi s) ≠ none
  · rw [if_pos h8] at h
    exact absurd h (by simp)
  rw [if_neg h8] at h
  by_cases h9 : mfind showCreateDatabaseRe (goTrimSuffixSemi s) ≠ none
  · rw [if_pos h9] at h
    exact absurd h (by simp)
  rw [if_neg h9] at h
  by_cases h10 : mfind showIndexRe (goTrimSuffixSemi s) ≠ none
  · rw [if_pos h10] at h
    exact absurd h (by simp)
  rw [if_neg h10] at h
  by_cases h11 : goToUpper (goTrimSuffixSemi s) = "SHOW STATUS"
  · rw [if_pos h11] at h
    exact absurd h (by simp)
  rw [if_neg h11] at h
  by_cases h12 : goToUpper (goTrimSuffixSemi s) = "SHOW VARIABLES" ∨ goToUpper (goTrimSuffixSemi s) = "SHOW GLOBAL VARIABLES"
  · rw [if_pos h12] at h
    exact absurd h (by simp)
  rw [if_neg h12] at h
  by_cases h13 : mfind showVarsLikeRe (goTrimSuffixSemi s) ≠ none
  · rw [if_pos h13] at h
    exact absurd h (by simp)
  rw [if_neg h13] at h
  by_cases h14 : goToUpper (goTrimSuffixSemi s) = "SHOW PROCESSLIST" ∨ goToUpper (goTrimSuffixSemi s) = "SHOW FULL PROCESSLIST"
  · rw [if_pos h14] at h
    exact absurd h (by simp)
  rw [if_neg h14] at h
  by_cases h15 : goToUpper (goTrimSuffixSemi s) = "SHOW GRANTS"
  · rw [if_pos h15] at h
    exact absurd h (by simp)
  rw [if_neg h15] at h
  by_cases h16 : mfind showGrantsForRe (goTrimSuffixSemi s) ≠ none
  · rw [if_pos h16] at h
    exact absurd h (by simp)
  rw [if_neg h16] at h
  by_cases h17 : goToUpper (goTrimSuffixSemi s) = "SHOW TABLE STATUS"
  · rw [if_pos h17] at h
    exact absurd h (by simp)
  rw [if_neg h17] at h
  by_cases h18 : goToUpper (goTrimSuffixSemi s) = "SHOW SCHEMAS"
  · rw [if_pos h18] at h
    exact absurd h (by simp)
  rw [if_neg h18] at h
  by_cases h19 : goToUpper (goTrimSuffixSemi s) = "SHOW TRIGGERS"
  · rw [if_pos h19] at h
    exact absurd h (by simp)
  rw [if_neg h19] at h
  by_cases h20 : goToUpper (goTrimSuffixSemi s) = "SHOW FUNCTION STATUS" ∨ goToUpper (goTrimSuffixSemi s) = "SHOW PROCEDURE STATUS"
  · rw [if_pos h20] at h
    exact absurd h (by simp)
  rw [if_neg h20] at h
  by_cases h21 : mfind useDbRe (goTrimSuffixSemi s) ≠ none
  · rw [if_pos h21] at h
    exact absurd h (by simp)
  rw [if_neg h21] at h
  by_cases h22 : goToUpper (goTrimSuffixSemi s) = "SHOW ENGINES"
  · rw [if_pos h22] at h
    exact absurd h (by simp)
  rw [if_neg h22] at h
  by_cases h23 : goToUpper (goTrimSuffixSemi s) = "SHOW CHARSET" ∨ goToUpper (goTrimSuffixSemi s) = "SHOW CHARACTER SET"
  · rw [if_pos h23] at h
    exact absurd h (by simp)
  rw [if_neg h23] at h
  by_cases h24 : goToUpper (goTrimSuffixSemi s) = "SHOW COLLATION"
  · rw [if_pos h24] at h
    exact absurd h (by simp)
  rw [if_neg h24] at h
  by_cases h25 : goToUpper (goTrimSuffixSemi s) = "SHOW WARNINGS" ∨ goToUpper (goTrimSuffixSemi s) = "SHOW ERRORS"
  · rw [if_pos h25] at h
    exact absurd h (by simp)
  rw [if_neg h25] at h
  by_cases h26 : goToUpper (goTrimSuffixSemi s) = "SELECT DATABASE()"
  · rw [if_pos h26] at h
    exact absurd h (by simp)
  rw [if_neg h26] at h
  by_cases h27 : goToUpper (goTrimSuffixSemi s) = "SELECT VERSION()"
  · rw [if_pos h27] at h
    exact absurd h (by simp)
  rw [if_neg h27] at h
  by_cases h28 : goToUpper (goTrimSuffixSemi s) = "SELECT USER()" ∨ goToUpper (goTrimSuffixSemi s) = "SELECT CURRENT_USER()"
  · rw [if_pos h28] at h
    exact absurd h (by simp)
  rw [if_neg h28] at h
  by_cases h29 : goToUpper (goTrimSuffixSemi s) = "SELECT NOW()"
  · rw [if_pos h29] at h
    exact absurd h (by simp)
  rw [if_neg h29] at h
  by_cases h30 : goHasPre "\\" s = true
  · rw [if_pos h30] at h
    exact ⟨h30, h⟩
  rw [if_neg h30] at h
  exact absurd h (by simp)


/-! ## Trimming lemmas -/

lemma goTrimSpace_idem (s : String) : goTrimSpace (goTrimSpace s) = goTrimSpace s := by
  unfold goTrimSpace
  congr 1
  cases hr : List.rdropWhile goIsSpace (s.data.dropWhile goIsSpace) with
  | nil => simp [List.rdropWhile]
  | cons c r =>
    obtain ⟨t, ht⟩ := List.rdropWhile_prefix goIsSpace (s.data.dropWhile goIsSpace)
    rw [hr] at ht
    have hne : s.data.dropWhile goIsSpace ≠ [] := by
      rw [← ht]; simp
    have ht2 : List.dropWhile goIsSpace s.data = c :: (r ++ t) := by
      rw [← ht]; simp
    have hc : ¬ goIsSpace c := by
      have := List.head_dropWhile_not goIsSpace s.data hne
      have hh : (s.data.dropWhile goIsSpace).head hne = c := by simp [ht2]
      rw [hh] at this
      simp [this]
    rw [List.dropWhile_cons_of_neg hc, ← hr, List.rdropWhile_idempotent]

lemma goTrimSpace_sandwich (c d : Char) (mid : List Char)
    (hc : ¬ goIsSpace c) (hd : ¬ goIsSpace d) :
    goTrimSpace ⟨c :: mid ++ [d]⟩ = ⟨c :: mid ++ [d]⟩ := by
  unfold goTrimSpace
  show (⟨List.rdropWhile goIsSpace (List.dropWhile goIsSpace (c :: (mid ++ [d])))⟩ : String) = _
  rw [List.dropWhile_cons, if_neg hc,
    show c :: (mid ++ [d]) = (c :: mid) ++ [d] from rfl,
    List.rdropWhile_concat_neg goIsSpace _ d hd]

lemma goTrimSpace_single (c : Char) (hc : ¬ goIsSpace c) :
    goTrimSpace ⟨[c]⟩ = ⟨[c]⟩ := by
  unfold goTrimSpace
  show (⟨List.rdropWhile goIsSpace (List.dropWhile goIsSpace [c])⟩ : String) = _
  rw [List.dropWhile_cons, if_neg hc, List.rdropWhile_singleton, if_neg hc]

/-! ## Claim theorems -/

/-- C1 (counterexample): translating SHOW TABLES FROM db under the foreign
dialect yields a result with IsSpecial true whose Query is nonempty — the
claimed mutual exclusion of query and special action fails on the
cross-database listing. -/
theorem translate_show_tables_from_both_set :
    Translate DBType.PostgreSQL "SHOW TABLES FROM db" =
      .ok { Query := showTablesFromQuery "db", IsSpecial := true,
            SpecialType := "cross_db_query", Args := ["db"] } ∧
    showTablesFromQuery "db" ≠ "" :=
  ⟨by decide, by decide⟩

/-- C1 (amended): for either dialect, an ok result of Translate has an empty
Query whenever it is special — except the cross_db_query outcome, which
carries both the rewritten query and the special action — and a non-special
result carries no special kind and no arguments. -/
theorem translate_outcome_exclusivity (d : DBType) (input : String)
    (r : TranslationResult) (h : Translate d input = .ok r) :
    (r.IsSpecial = true → r.SpecialType = "cross_db_query" ∨ r.Query = "") ∧
    (r.IsSpecial = false → r.SpecialType = "" ∧ r.Args = []) := by
  unfold Translate at h
  by_cases hd : d = DBType.MySQL
  · rw [if_pos hd] at h
    injection h with h
    subst h
    exact ⟨by simp, by simp⟩
  · rw [if_neg hd] at h
    have hs := pg_shape _ _ h
    exact ⟨hs.1, hs.2.1⟩

/-- C1 (witness): the exclusivity theorem applied to SHOW DATABASES. -/
theorem translate_outcome_exclusivity_witness :
    (({ Query := showDatabasesQuery } : TranslationResult).IsSpecial = true →
      ({ Query := showDatabasesQuery } : TranslationResult).SpecialType = "cross_db_query" ∨
      ({ Query := showDatabasesQuery } : TranslationResult).Query = "") ∧
    (({ Query := showDatabasesQuery } : TranslationResult).IsSpecial = false →
      ({ Query := showDatabasesQuery } : TranslationResult).SpecialType = "" ∧
      ({ Query := showDatabasesQuery } : TranslationResult).Args = []) :=
  translate_outcome_exclusivity DBType.PostgreSQL "SHOW DATABASES"
    { Query := showDatabasesQuery } (by decide)

/-- C2 (counterexample): the native dialect does not return every input
exactly — Translate trims surrounding whitespace first. -/
theorem translate_native_identity_cex :
    Translate DBType.MySQL " SELECT 1 " = .ok { Query := "SELECT 1" } ∧
    ("SELECT 1" : String) ≠ " SELECT 1 " :=
  ⟨by decide, by decide⟩

/-- C2 (amended): for the native MySQL dialect, Translate returns the
whitespace-trimmed input as the query — hence the input itself whenever the
input carries no surrounding whitespace — with no special action and no
error, for every input. -/
theorem translate_native_identity (q : String) :
    Translate DBType.MySQL q =
      .ok { Query := goTrimSpace q, IsSpecial := false, SpecialType := "", Args := [] } := by
  unfold Translate
  rw [if_pos rfl]

/-- C3 (counterexample): an input that does not begin with the backslash
marker can still make Translate fail — " \\c" (leading space) errors under
the foreign dialect although its first character is a space, and its first
token matches a recognized rule. -/
theorem translate_error_nonbackslash_cex :
    goHasPre "\\" " \\c" = false ∧
    Translate DBType.PostgreSQL " \\c" = .error "usage: \\c database_name" :=
  ⟨by decide, by decide⟩

/-- C3 (amended): Translate fails only under the foreign dialect, only when
the trimmed input begins with the backslash marker, and only in two ways:
the first token matches no rule (unknown-command error, as for \\z), or the
first token is \\c or \\connect with no argument (missing-argument error);
in particular ordinary text never fails. -/
theorem translate_error_only_backslash (d : DBType) (input e : String)
    (h : Translate d input = .error e) :
    d = DBType.PostgreSQL ∧ goHasPre "\\" (goTrimSpace input) = true ∧
    (((goFields (goTrimSpace input)).headD "" ∉ backslashCmds ∧
        e = "unknown command: " ++ (goFields (goTrimSpace input)).headD "") ∨
      (((goFields (goTrimSpace input)).headD "" = "\\c" ∨
          (goFields (goTrimSpace input)).headD "" = "\\connect") ∧
        (goFields (goTrimSpace input)).length ≤ 1 ∧ e = "usage: \\c database_name")) := by
  unfold Translate at h
  by_cases hd : d = DBType.MySQL
  · rw [if_pos hd] at h
    exact absurd h (by simp)
  · rw [if_neg hd] at h
    have hpe := pg_error _ _ h
    have hbs := backslash_error_shape _ _ hpe.2
    rw [goTrimSpace_idem] at hbs
    refine ⟨?_, hpe.1, hbs⟩
    cases d
    · exact absurd rfl hd
    · rfl

/-- C3 (witness): the error characterization applied to \\z. -/
theorem translate_error_only_backslash_witness :
    DBType.PostgreSQL = DBType.PostgreSQL ∧
    goHasPre "\\" (goTrimSpace "\\z") = true ∧
    (((goFields (goTrimSpace "\\z")).headD "" ∉ backslashCmds ∧
        "unknown command: \\z" = "unknown command: " ++ (goFields (goTrimSpace "\\z")).headD "") ∨
      (((goFields (goTrimSpace "\\z")).headD "" = "\\c" ∨
          (goFields (goTrimSpace "\\z")).headD "" = "\\connect") ∧
        (goFields (goTrimSpace "\\z")).length ≤ 1 ∧
        "unknown command: \\z" = "usage: \\c database_name")) :=
  translate_error_only_backslash DBType.PostgreSQL "\\z" "unknown command: \\z" (by decide)

/-- C4: under the foreign dialect, \\c (and \\connect) with no following
token fails with the missing-argument error, while \\c mydb succeeds with
the switch-active-database action and argument list exactly [mydb]. -/
theorem backslash_connect_argument_law :
    Translate DBType.PostgreSQL "\\c" = .error "usage: \\c database_name" ∧
    Translate DBType.PostgreSQL "\\connect" = .error "usage: \\c database_name" ∧
    Translate DBType.PostgreSQL "\\c mydb" =
      .ok { IsSpecial := true, SpecialType := "use_database", Args := ["mydb"] } :=
  ⟨by decide, by decide, by decide⟩

/-- C5: under the foreign dialect, USE testdb yields the
switch-active-database special action with argument list exactly [testdb]
and no query to execute. -/
theorem translate_use_database :
    Translate DBType.PostgreSQL "USE testdb" =
      .ok { Query := "", IsSpecial := true, SpecialType := "use_database",
            Args := ["testdb"] } := by
  decide



/-- C8 (counterexample): a help trigger followed by additional argument text
is not a help overlay at all — it passes through unchanged, unlike the bare
trigger. -/
theorem help_trigger_extra_text_cex :
    Translate DBType.PostgreSQL "SHOW TABLES --HELP MORE" =
      .ok { Query := "SHOW TABLES --HELP MORE" } ∧
    Translate DBType.PostgreSQL "SHOW TABLES --HELP" =
      .ok { IsSpecial := true, SpecialType := "show_tables_help" } ∧
    ({ Query := "SHOW TABLES --HELP MORE" } : TranslationResult) ≠
      { IsSpecial := true, SpecialType := "show_tables_help" } :=
  ⟨by decide, by decide, by decide⟩

/-- C8 (amended): under the foreign dialect a help-overlay outcome arises
exactly from an exact trigger phrase (case-insensitively, after trimming and
terminator stripping); any surrounding argument text prevents the help
outcome, and every help outcome has no query and no arguments. -/
theorem help_outcome_only_exact_triggers (input : String) (r : TranslationResult)
    (h : Translate DBType.PostgreSQL input = .ok r) (hk : r.SpecialType ∈ helpKinds) :
    goToUpper (goTrimSpace (goTrimSuffixSemi (goTrimSpace input))) ∈ helpTriggers ∧
    r.Query = "" ∧ r.Args = [] ∧ r.IsSpecial = true := by
  unfold Translate at h
  rw [if_neg (by decide : ¬ (DBType.PostgreSQL = DBType.MySQL))] at h
  exact (pg_shape _ _ h).2.2 hk

/-- C8 (witness): the exact-trigger theorem applied to SHOW TABLES --help. -/
theorem help_outcome_only_exact_triggers_witness :
    goToUpper (goTrimSpace (goTrimSuffixSemi (goTrimSpace "SHOW TABLES --help"))) ∈ helpTriggers ∧
    ({ IsSpecial := true, SpecialType := "show_tables_help" } : TranslationResult).Query = "" ∧
    ({ IsSpecial := true, SpecialType := "show_tables_help" } : TranslationResult).Args = [] ∧
    ({ IsSpecial := true, SpecialType := "show_tables_help" } : TranslationResult).IsSpecial = true :=
  help_outcome_only_exact_triggers "SHOW TABLES --help"
    { IsSpecial := true, SpecialType := "show_tables_help" } (by decide) (by decide)

/-- C9 (bug evidence): when switching the active database fails, the client's
own active-database name is indeed left unchanged, but the connection's
config has already been overwritten and its handle closed — SetDatabase
closes the old connection before attempting the new one, so a failed switch
leaves no usable connection. -/
theorem setDatabase_discards_connection_on_failure :
    clientUseDatabase (fun _ => false)
        { conn := { Config := { Database := "olddb" }, connOpen := true },
          configDatabase := "olddb" } ["mydb"] =
      ({ conn := { Config := { Database := "mydb" }, connOpen := false },
         configDatabase := "olddb" }, true) := by
  decide




/-- strings.HasSuffix. -/
def goHasSuffix (sfx s : String) : Bool :=
  sfx.data.isSuffixOf s.data

lemma mseq_nil_head (a b : Matcher) (l : List Char) (h : a l = []) :
    mseq a b l = [] := by
  simp [mseq, h]

lemma mgroup_nil (a : Matcher) (l : List Char) (h : a l = []) :
    mgroup a l = [] := by
  simp [mgroup, h]

lemma mlit_backslash_head (w : String) (c : Char) (cs r : List Char)
    (hw : w.data = c :: cs) (hc : ¬ upChar c = upChar '\\') :
    mlit w ('\\' :: r) = [] := by
  simp [mlit, hw, litMatch, hc]

lemma mfind_none (m : Matcher) (t : String) (h : m t.data = []) :
    mfind m t = none := by
  simp [mfind, h]

lemma trim_backslash_head (t : String) (r : List Char) (ht : t.data = '\\' :: r) :
    (goTrimSpace t).data = [] ∨ ∃ r2, (goTrimSpace t).data = '\\' :: r2 := by
  unfold goTrimSpace
  rw [show (⟨List.rdropWhile goIsSpace (t.data.dropWhile goIsSpace)⟩ : String).data
        = List.rdropWhile goIsSpace (t.data.dropWhile goIsSpace) from rfl, ht,
      List.dropWhile_cons_of_neg (by decide)]
  cases hr : List.rdropWhile goIsSpace ('\\' :: r) with
  | nil => exact Or.inl rfl
  | cons c w =>
    right
    obtain ⟨u, hu⟩ := List.rdropWhile_prefix goIsSpace ('\\' :: r)
    rw [hr, List.cons_append] at hu
    injection hu with h1 _
    subst h1
    exact ⟨w, rfl⟩

lemma upper_backslash_ne (t w : String) (r : List Char)
    (ht : t.data = '\\' :: r) (hw : w.data.headD '\\' ≠ '\\') :
    ¬ (goToUpper t = w) := by
  intro he
  have hd := congrArg String.data he
  rw [show (goToUpper t).data = t.data.map upChar from rfl, ht, List.map_cons] at hd
  cases hwdata : w.data with
  | nil => rw [hwdata] at hd; exact absurd hd (by simp)
  | cons c cs =>
    rw [hwdata] at hd
    injection hd with h1 _
    rw [hwdata] at hw
    simp only [List.headD_cons] at hw
    rw [show upChar '\\' = '\\' from by decide] at h1
    exact hw h1.symm

lemma upper_tb_ne (u w : String) (hu : u.data = [] ∨ ∃ r2, u.data = '\\' :: r2)
    (hw1 : w.data ≠ []) (hw2 : w.data.headD '\\' ≠ '\\') :
    ¬ (goToUpper u = w) := by
  cases hu with
  | inl h0 =>
    intro he
    have hd := congrArg String.data he
    rw [show (goToUpper u).data = u.data.map upChar from rfl, h0] at hd
    exact hw1 hd.symm
  | inr h2 =>
    obtain ⟨r2, h2⟩ := h2
    exact upper_backslash_ne u w r2 h2 hw2

lemma handleHelp_backslash (t : String) (r : List Char) (ht : t.data = '\\' :: r) :
    handleHelpCommands t = none := by
  have htb := trim_backslash_head t r ht
  unfold handleHelpCommands
  rw [if_neg (upper_tb_ne _ _ htb (by decide) (by decide)),
      if_neg (upper_tb_ne _ _ htb (by decide) (by decide)),
      if_neg (upper_tb_ne _ _ htb (by decide) (by decide)),
      if_neg (not_or.mpr ⟨upper_tb_ne _ _ htb (by decide) (by decide),
        not_or.mpr ⟨upper_tb_ne _ _ htb (by decide) (by decide),
          upper_tb_ne _ _ htb (by decide) (by decide)⟩⟩)]



lemma showTablesFromRe_bs (r : List Char) : showTablesFromRe ('\\' :: r) = [] :=
  mseq_nil_head _ _ _ (mlit_backslash_head "SHOW" 'S' ['H','O','W'] r rfl (by decide))

lemma showColumnsRe_bs (r : List Char) : showColumnsRe ('\\' :: r) = [] := by
  refine mseq_nil_head _ _ _ (mgroup_nil _ _ ?_)
  show malt _ (malt _ _) ('\\' :: r) = []
  rw [malt, malt,
    show mseqs [mlit "SHOW", mws, mlit "COLUMNS", mws, mlit "FROM"] ('\\' :: r)
        = mseq (mlit "SHOW") (mseqs [mws, mlit "COLUMNS", mws, mlit "FROM"]) ('\\' :: r)
      from rfl,
    mseq_nil_head _ _ _ (mlit_backslash_head "SHOW" 'S' ['H','O','W'] r rfl (by decide)),
    mlit_backslash_head "DESC" 'D' ['E','S','C'] r rfl (by decide),
    mlit_backslash_head "DESCRIBE" 'D' ['E','S','C','R','I','B','E'] r rfl (by decide)]
  rfl

lemma showFullColumnsRe_bs (r : List Char) : showFullColumnsRe ('\\' :: r) = [] :=
  mseq_nil_head _ _ _ (mlit_backslash_head "SHOW" 'S' ['H','O','W'] r rfl (by decide))

lemma showCreateTableRe_bs (r : List Char) : showCreateTableRe ('\\' :: r) = [] :=
  mseq_nil_head _ _ _ (mlit_backslash_head "SHOW" 'S' ['H','O','W'] r rfl (by decide))

lemma showCreateDatabaseRe_bs (r : List Char) : showCreateDatabaseRe ('\\' :: r) = [] :=
  mseq_nil_head _ _ _ (mlit_backslash_head "SHOW" 'S' ['H','O','W'] r rfl (by decide))

lemma showIndexRe_bs (r : List Char) : showIndexRe ('\\' :: r) = [] :=
  mseq_nil_head _ _ _ (mlit_backslash_head "SHOW" 'S' ['H','O','W'] r rfl (by decide))

lemma showVarsLikeRe_bs (r : List Char) : showVarsLikeRe ('\\' :: r) = [] :=
  mseq_nil_head _ _ _ (mlit_backslash_head "SHOW" 'S' ['H','O','W'] r rfl (by decide))

lemma showGrantsForRe_bs (r : List Char) : showGrantsForRe ('\\' :: r) = [] :=
  mseq_nil_head _ _ _ (mlit_backslash_head "SHOW" 'S' ['H','O','W'] r rfl (by decide))

lemma useDbRe_bs (r : List Char) : useDbRe ('\\' :: r) = [] :=
  mseq_nil_head _ _ _ (mlit_backslash_head "USE" 'U' ['S','E'] r rfl (by decide))



lemma hasPre_backslash (s : String) (h : goHasPre "\\" s = true) :
    ∃ r0, s.data = '\\' :: r0 := by
  unfold goHasPre at h
  cases hd : s.data with
  | nil => rw [hd] at h; exact absurd h (by decide)
  | cons c t =>
    rw [hd] at h
    simp [List.isPrefixOf] at h
    subst h
    exact ⟨t, rfl⟩

lemma trimSemi_backslash (s : String) (r0 : List Char) (h : s.data = '\\' :: r0) :
    ∃ r, (goTrimSuffixSemi s).data = '\\' :: r := by
  unfold goTrimSuffixSemi
  by_cases hc : s.data.getLast? = some ';'
  · rw [if_pos hc]
    cases r0 with
    | nil => rw [h] at hc; exact absurd hc (by decide)
    | cons d r0t =>
      refine ⟨(d :: r0t).dropLast, ?_⟩
      rw [show (⟨s.data.dropLast⟩ : String).data = s.data.dropLast from rfl, h]
      rfl
  · rw [if_neg hc]
    exact ⟨r0, h⟩



lemma pg_backslash_delegate (s : String) (hs : goHasPre "\\" s = true) :
    translateForPostgres s = translateBackslashCommand s := by
  obtain ⟨r0, hr0⟩ := hasPre_backslash s hs
  obtain ⟨r1, hr1⟩ := trimSemi_backslash s r0 hr0
  have hne : ∀ w : String, w.data.headD '\\' ≠ '\\' →
      ¬ (goToUpper (goTrimSuffixSemi s) = w) :=
    fun w hw => upper_backslash_ne _ w r1 hr1 hw
  have hHelp : handleHelpCommands (goTrimSuffixSemi s) = none :=
    handleHelp_backslash _ r1 hr1
  have hm1 : mfind showTablesFromRe (goTrimSuffixSemi s) = none :=
    mfind_none _ _ (by rw [hr1]; exact showTablesFromRe_bs r1)
  have hm2 : mfind showColumnsRe (goTrimSuffixSemi s) = none :=
    mfind_none _ _ (by rw [hr1]; exact showColumnsRe_bs r1)
  have hm3 : mfind showFullColumnsRe (goTrimSuffixSemi s) = none :=
    mfind_none _ _ (by rw [hr1]; exact showFullColumnsRe_bs r1)
  have hm4 : mfind showCreateTableRe (goTrimSuffixSemi s) = none :=
    mfind_none _ _ (by rw [hr1]; exact showCreateTableRe_bs r1)
  have hm5 : mfind showCreateDatabaseRe (goTrimSuffixSemi s) = none :=
    mfind_none _ _ (by rw [hr1]; exact showCreateDatabaseRe_bs r1)
  have hm6 : mfind showIndexRe (goTrimSuffixSemi s) = none :=
    mfind_none _ _ (by rw [hr1]; exact showIndexRe_bs r1)
  have hm7 : mfind showVarsLikeRe (goTrimSuffixSemi s) = none :=
    mfind_none _ _ (by rw [hr1]; exact showVarsLikeRe_bs r1)
  have hm8 : mfind showGrantsForRe (goTrimSuffixSemi s) = none :=
    mfind_none _ _ (by rw [hr1]; exact showGrantsForRe_bs r1)
  have hm9 : mfind useDbRe (goTrimSuffixSemi s) = none :=
    mfind_none _ _ (by rw [hr1]; exact useDbRe_bs r1)
  unfold translateForPostgres
  rw [if_neg (fun hx => hx hHelp),
      if_neg (hne _ (by decide)),
      if_neg (hne _ (by decide)),
      if_neg (hne _ (by decide)),
      if_neg (fun hx => hx hm1),
      if_neg (fun hx => hx hm2),
      if_neg (fun hx => hx hm3),
      if_neg (fun hx => hx hm4),
      if_neg (fun hx => hx hm5),
      if_neg (fun hx => hx hm6),
      if_neg (hne _ (by decide)),
      if_neg (not_or.mpr ⟨hne _ (by decide), hne _ (by decide)⟩),
      if_neg (fun hx => hx hm7),
      if_neg (not_or.mpr ⟨hne _ (by decide), hne _ (by decide)⟩),
      if_neg (hne _ (by decide)),
      if_neg (fun hx => hx hm8),
      if_neg (hne _ (by decide)),
      if_neg (hne _ (by decide)),
      if_neg (hne _ (by decide)),
      if_neg (not_or.mpr ⟨hne _ (by decide), hne _ (by decide)⟩),
      if_neg (fun hx => hx hm9),
      if_neg (hne _ (by decide)),
      if_neg (not_or.mpr ⟨hne _ (by decide), hne _ (by decide)⟩),
      if_neg (hne _ (by decide)),
      if_neg (not_or.mpr ⟨hne _ (by decide), hne _ (by decide)⟩),
      if_neg (hne _ (by decide)),
      if_neg (hne _ (by decide)),
      if_neg (not_or.mpr ⟨hne _ (by decide), hne _ (by decide)⟩),
      if_neg (hne _ (by decide)),
      if_pos hs]



/-- C10 (amended): under the foreign dialect, a punctuation-prefixed
directive whose first whitespace-separated token carries the trailing
terminator fails with the unknown-command error: the semicolon is stripped
only from the copy used for keyword matching, while the backslash
sub-rewriter receives the original input. -/
theorem backslash_semicolon_first_token_unknown (input : String)
    (h1 : goHasPre "\\" (goTrimSpace input) = true)
    (h2 : goHasSuffix ";" ((goFields (goTrimSpace input)).headD "") = true) :
    Translate DBType.PostgreSQL input =
      .error ("unknown command: " ++ (goFields (goTrimSpace input)).headD "") := by
  unfold Translate
  rw [if_neg (by decide : ¬ (DBType.PostgreSQL = DBType.MySQL))]
  rw [pg_backslash_delegate _ h1]
  unfold translateBackslashCommand
  rw [goTrimSpace_idem]
  have hne : ∀ w : String, goHasSuffix ";" w = false →
      ¬ ((goFields (goTrimSpace input)).headD "" = w) := by
    intro w hw heq
    rw [heq, hw] at h2
    exact absurd h2 (by simp)
  rw [if_neg (not_or.mpr ⟨hne _ (by decide), hne _ (by decide)⟩),
      if_neg (hne _ (by decide)),
      if_neg (hne _ (by decide)),
      if_neg (hne _ (by decide)),
      if_neg (hne _ (by decide)),
      if_neg (hne _ (by decide)),
      if_neg (hne _ (by decide)),
      if_neg (hne _ (by decide)),
      if_neg (hne _ (by decide)),
      if_neg (not_or.mpr ⟨hne _ (by decide), hne _ (by decide)⟩),
      if_neg (not_or.mpr ⟨hne _ (by decide), hne _ (by decide)⟩),
      if_neg (not_or.mpr ⟨hne _ (by decide), hne _ (by decide)⟩),
      if_neg (hne _ (by decide))]

/-- C10 (witness): the terminator-carrying first token theorem at \\dt; . -/
theorem backslash_semicolon_witness :
    Translate DBType.PostgreSQL "\\dt;" =
      .error ("unknown command: " ++ (goFields (goTrimSpace "\\dt;")).headD "") :=
  backslash_semicolon_first_token_unknown "\\dt;" (by decide) (by decide)

/-- C10 (counterexample): a terminator attached to a later token does not
make the directive fail — \\c mydb; is recognized, with the semicolon left
inside the argument. -/
theorem backslash_semicolon_later_token_recognized :
    goHasSuffix ";" "\\c mydb;" = true ∧
    Translate DBType.PostgreSQL "\\c mydb;" =
      .ok { IsSpecial := true, SpecialType := "use_database", Args := ["mydb;"] } :=
  ⟨by decide, by decide⟩



lemma wordChar_not_space (c : Char) (h : isWordChar c = true) : goIsSpace c = false := by
  simp only [isWordChar, Bool.or_eq_true, Bool.and_eq_true, decide_eq_true_eq] at h
  simp only [goIsSpace, Bool.or_eq_false_iff, decide_eq_false_iff_not]
  omega

lemma wordChar_not_regexSpace (c : Char) (h : isWordChar c = true) : regexSpace c = false := by
  simp only [isWordChar, Bool.or_eq_true, Bool.and_eq_true, decide_eq_true_eq] at h
  simp only [regexSpace, Bool.or_eq_false_iff, decide_eq_false_iff_not]
  omega

lemma wordChar_ne_semi (c : Char) (h : isWordChar c = true) : c ≠ ';' := by
  intro he
  subst he
  exact absurd h (by decide)

lemma wordChar_ne_quote (c : Char) (h : isWordChar c = true) : notQuote c = true := by
  simp only [isWordChar, Bool.or_eq_true, Bool.and_eq_true, decide_eq_true_eq] at h
  simp only [notQuote, bne_iff_ne, ne_eq]
  omega

lemma wordChar_up_ne_dash (c : Char) (h : isWordChar c = true) : upChar c ≠ '-' := by
  simp only [isWordChar, Bool.or_eq_true, Bool.and_eq_true, decide_eq_true_eq] at h
  unfold upChar
  intro he
  by_cases hc : 97 ≤ c.toNat ∧ c.toNat ≤ 122
  · rw [if_pos hc] at he
    have h2 : (Char.ofNat (c.toNat - 32)).toNat = c.toNat - 32 := by
      unfold Char.ofNat
      rw [dif_pos (Or.inl (by omega))]
      simp [Char.ofNatAux, Char.toNat, UInt32.toNat, UInt32.ofNat', BitVec.toNat_ofNatLt]
    have h3 := congrArg Char.toNat he
    rw [h2] at h3
    have : ('-' : Char).toNat = 45 := by decide
    omega
  · rw [if_neg hc] at he
    subst he
    revert h
    decide

lemma capSplits_nil (p : Char → Bool) (l : List Char) (h : ∀ c ∈ l, p c = false) :
    capSplits p l = [] := by
  cases l with
  | nil => rfl
  | cons c t =>
    unfold capSplits
    rw [if_neg (by simp [h c (by simp)])]

lemma capSplits_filter_all (p : Char → Bool) (l : List Char)
    (h : ∀ c ∈ l, p c = true) (h0 : l ≠ []) :
    (capSplits p l).filter (fun q => q.2.isEmpty) = [(l, [])] := by
  induction l with
  | nil => exact absurd rfl h0
  | cons c t ih =>
    unfold capSplits
    rw [if_pos (h c (by simp))]
    rw [List.filter_append, List.filter_map]
    cases t with
    | nil => simp [capSplits]
    | cons d u =>
      have hcomp : ((fun q : List Char × List Char => q.2.isEmpty) ∘
          fun q : List Char × List Char => (c :: q.1, q.2)) =
          (fun q : List Char × List Char => q.2.isEmpty) := by
        funext q
        rfl
      rw [hcomp, ih (fun x hx => h x (by simp [hx])) (by simp)]
      simp

lemma mlit_head_ne (w : String) (c : Char) (cs : List Char) (d : Char) (r : List Char)
    (hw : w.data = c :: cs) (hc : ¬ upChar c = upChar d) :
    mlit w (d :: r) = [] := by
  simp [mlit, hw, litMatch, hc]

set_option maxHeartbeats 1600000 in
lemma translate_desc_table (t : String) (h1 : t ≠ "") (h2 : ∀ c ∈ t.data, isWordChar c = true) :
    Translate DBType.PostgreSQL ("DESC " ++ t) = .ok { Query := descColumnsQuery t } := by
  have ht0 : t.data ≠ [] := fun hh => h1 (by cases t with | mk d => simp at hh; rw [hh])
  obtain hcc | ⟨init, lst, hinit⟩ := t.data.eq_nil_or_concat
  · exact absurd hcc ht0
  rw [List.concat_eq_append] at hinit
  have hlst : isWordChar lst = true := h2 lst (by rw [hinit]; simp)
  have htrim : goTrimSpace ("DESC " ++ t) = "DESC " ++ t := by
    have hshape : ("DESC " ++ t) = ⟨'D' :: (('E' :: 'S' :: 'C' :: ' ' :: init) ++ [lst])⟩ := by
      apply String.ext
      show ("DESC " ++ t).data = _
      simp [hinit]
    rw [hshape]
    exact goTrimSpace_sandwich _ _ _ (by decide) (by simp [wordChar_not_space lst hlst])
  have hlast : ("DESC " ++ t).data.getLast? = some lst := by
    rw [show ("DESC " ++ t).data = ("DESC " : String).data ++ t.data from rfl,
        List.getLast?_append_of_ne_nil _ ht0, hinit]
    exact List.getLast?_concat _
  have htsemi : goTrimSuffixSemi ("DESC " ++ t) = "DESC " ++ t := by
    unfold goTrimSuffixSemi
    rw [if_neg (fun hc => wordChar_ne_semi lst hlst
      (by rw [hlast] at hc; exact Option.some.inj hc))]
  have hT1 : ¬ (goToUpper ("DESC " ++ t) = "SHOW --HELP") := by
    intro he
    have hd := congrArg String.data he
    rw [show (goToUpper ("DESC " ++ t)).data
          = 'D' :: 'E' :: 'S' :: 'C' :: ' ' :: List.map upChar t.data from rfl,
        show ("SHOW --HELP" : String).data = ['S','H','O','W',' ','-','-','H','E','L','P'] from rfl] at hd
    simp +decide at hd
  have hT2 : ¬ (goToUpper ("DESC " ++ t) = "SHOW CREATE --HELP") := by
    intro he
    have hd := congrArg String.data he
    rw [show (goToUpper ("DESC " ++ t)).data
          = 'D' :: 'E' :: 'S' :: 'C' :: ' ' :: List.map upChar t.data from rfl,
        show ("SHOW CREATE --HELP" : String).data = ['S','H','O','W',' ','C','R','E','A','T','E',' ','-','-','H','E','L','P'] from rfl] at hd
    simp +decide at hd
  have hT3 : ¬ (goToUpper ("DESC " ++ t) = "SHOW TABLES --HELP") := by
    intro he
    have hd := congrArg String.data he
    rw [show (goToUpper ("DESC " ++ t)).data
          = 'D' :: 'E' :: 'S' :: 'C' :: ' ' :: List.map upChar t.data from rfl,
        show ("SHOW TABLES --HELP" : String).data = ['S','H','O','W',' ','T','A','B','L','E','S',' ','-','-','H','E','L','P'] from rfl] at hd
    simp +decide at hd
  have hT4 : ¬ (goToUpper ("DESC " ++ t) = "SHOW COLUMNS --HELP") := by
    intro he
    have hd := congrArg String.data he
    rw [show (goToUpper ("DESC " ++ t)).data
          = 'D' :: 'E' :: 'S' :: 'C' :: ' ' :: List.map upChar t.data from rfl,
        show ("SHOW COLUMNS --HELP" : String).data = ['S','H','O','W',' ','C','O','L','U','M','N','S',' ','-','-','H','E','L','P'] from rfl] at hd
    simp +decide at hd
  have hT5 : ¬ (goToUpper ("DESC " ++ t) = "DESC --HELP") := by
    intro he
    have hd := congrArg String.data he
    rw [show (goToUpper ("DESC " ++ t)).data
          = 'D' :: 'E' :: 'S' :: 'C' :: ' ' :: List.map upChar t.data from rfl,
        show ("DESC --HELP" : String).data = ['D','E','S','C',' ','-','-','H','E','L','P'] from rfl] at hd
    simp +decide at hd
    cases ht2 : t.data with
    | nil => exact ht0 ht2
    | cons c0 t0 =>
      rw [ht2] at hd
      simp at hd
      exact wordChar_up_ne_dash c0 (h2 c0 (by rw [ht2]; simp)) hd.1
  have hT6 : ¬ (goToUpper ("DESC " ++ t) = "DESCRIBE --HELP") := by
    intro he
    have hd := congrArg String.data he
    rw [show (goToUpper ("DESC " ++ t)).data
          = 'D' :: 'E' :: 'S' :: 'C' :: ' ' :: List.map upChar t.data from rfl,
        show ("DESCRIBE --HELP" : String).data = ['D','E','S','C','R','I','B','E',' ','-','-','H','E','L','P'] from rfl] at hd
    simp +decide at hd
  have hhelp : handleHelpCommands ("DESC " ++ t) = none := by
    unfold handleHelpCommands
    rw [htrim]
    rw [if_neg hT1, if_neg hT2, if_neg hT3,
        if_neg (not_or.mpr ⟨hT4, not_or.mpr ⟨hT5, hT6⟩⟩)]
  have hL1 : ¬ (goToUpper ("DESC " ++ t) = "SHOW DATABASES") := by
    intro he
    have hd := congrArg String.data he
    rw [show (goToUpper ("DESC " ++ t)).data
          = 'D' :: 'E' :: 'S' :: 'C' :: ' ' :: List.map upChar t.data from rfl,
        show ("SHOW DATABASES" : String).data = ['S','H','O','W',' ','D','A','T','A','B','A','S','E','S'] from rfl] at hd
    simp +decide at hd
  have hL2 : ¬ (goToUpper ("DESC " ++ t) = "SHOW TABLES") := by
    intro he
    have hd := congrArg String.data he
    rw [show (goToUpper ("DESC " ++ t)).data
          = 'D' :: 'E' :: 'S' :: 'C' :: ' ' :: List.map upChar t.data from rfl,
        show ("SHOW TABLES" : String).data = ['S','H','O','W',' ','T','A','B','L','E','S'] from rfl] at hd
    simp +decide at hd
  have hL3 : ¬ (goToUpper ("DESC " ++ t) = "SHOW FULL TABLES") := by
    intro he
    have hd := congrArg String.data he
    rw [show (goToUpper ("DESC " ++ t)).data
          = 'D' :: 'E' :: 'S' :: 'C' :: ' ' :: List.map upChar t.data from rfl,
        show ("SHOW FULL TABLES" : String).data = ['S','H','O','W',' ','F','U','L','L',' ','T','A','B','L','E','S'] from rfl] at hd
    simp +decide at hd
  have hm1 : mfind showTablesFromRe ("DESC " ++ t) = none :=
    mfind_none _ _ (by
      rw [show ("DESC " ++ t).data = 'D' :: 'E' :: 'S' :: 'C' :: ' ' :: t.data from rfl]
      exact mseq_nil_head _ _ _ (mlit_head_ne "SHOW" 'S' ['H','O','W'] 'D' _ rfl (by decide)))
  have hws : capSplits regexSpace t.data = [] :=
    capSplits_nil _ _ (fun c hc => wordChar_not_regexSpace c (h2 c hc))
  have hfil := capSplits_filter_all isWordChar t.data h2 ht0
  have hfind : mfind showColumnsRe ("DESC " ++ t) = some ["DESC " ++ t, "DESC", t] := by
    unfold mfind
    rw [show ("DESC " ++ t).data = 'D' :: 'E' :: 'S' :: 'C' :: ' ' :: t.data from rfl]
    simp +decide [showColumnsRe, mseqs, mseq, mgroup, malt, mlit, mws, mcap, litMatch,
      capSplits, hws, List.filter_map, Function.comp_def, hfil]
  unfold Translate
  rw [if_neg (by decide : ¬ (DBType.PostgreSQL = DBType.MySQL)), htrim]
  unfold translateForPostgres
  rw [htsemi, if_neg (fun hx => hx hhelp), if_neg hL1, if_neg hL2, if_neg hL3,
      if_neg (fun hx => hx hm1), hfind]
  rw [if_pos (by simp)]
  rfl

set_option maxHeartbeats 1600000 in
lemma translate_describe_table (t : String) (h1 : t ≠ "") (h2 : ∀ c ∈ t.data, isWordChar c = true) :
    Translate DBType.PostgreSQL ("DESCRIBE " ++ t) = .ok { Query := descColumnsQuery t } := by
  have ht0 : t.data ≠ [] := fun hh => h1 (by cases t with | mk d => simp at hh; rw [hh])
  obtain hcc | ⟨init, lst, hinit⟩ := t.data.eq_nil_or_concat
  · exact absurd hcc ht0
  rw [List.concat_eq_append] at hinit
  have hlst : isWordChar lst = true := h2 lst (by rw [hinit]; simp)
  have htrim : goTrimSpace ("DESCRIBE " ++ t) = "DESCRIBE " ++ t := by
    have hshape : ("DESCRIBE " ++ t) = ⟨'D' :: (('E' :: 'S' :: 'C' :: 'R' :: 'I' :: 'B' :: 'E' :: ' ' :: init) ++ [lst])⟩ := by
      apply String.ext
      show ("DESCRIBE " ++ t).data = _
      simp [hinit]
    rw [hshape]
    exact goTrimSpace_sandwich _ _ _ (by decide) (by simp [wordChar_not_space lst hlst])
  have hlast : ("DESCRIBE " ++ t).data.getLast? = some lst := by
    rw [show ("DESCRIBE " ++ t).data = ("DESCRIBE " : String).data ++ t.data from rfl,
        List.getLast?_append_of_ne_nil _ ht0, hinit]
    exact List.getLast?_concat _
  have htsemi : goTrimSuffixSemi ("DESCRIBE " ++ t) = "DESCRIBE " ++ t := by
    unfold goTrimSuffixSemi
    rw [if_neg (fun hc => wordChar_ne_semi lst hlst
      (by rw [hlast] at hc; exact Option.some.inj hc))]
  have hT1 : ¬ (goToUpper ("DESCRIBE " ++ t) = "SHOW --HELP") := by
    intro he
    have hd := congrArg String.data he
    rw [show (goToUpper ("DESCRIBE " ++ t)).data
          = 'D' :: 'E' :: 'S' :: 'C' :: 'R' :: 'I' :: 'B' :: 'E' :: ' ' :: List.map upChar t.data from rfl,
        show ("SHOW --HELP" : String).data = ['S','H','O','W',' ','-','-','H','E','L','P'] from rfl] at hd
    simp +decide at hd
  have hT2 : ¬ (goToUpper ("DESCRIBE " ++ t) = "SHOW CREATE --HELP") := by
    intro he
    have hd := congrArg String.data he
    rw [show (goToUpper ("DESCRIBE " ++ t)).data
          = 'D' :: 'E' :: 'S' :: 'C' :: 'R' :: 'I' :: 'B' :: 'E' :: ' ' :: List.map upChar t.data from rfl,
        show ("SHOW CREATE --HELP" : String).data = ['S','H','O','W',' ','C','R','E','A','T','E',' ','-','-','H','E','L','P'] from rfl] at hd
    simp +decide at hd
  have hT3 : ¬ (goToUpper ("DESCRIBE " ++ t) = "SHOW TABLES --HELP") := by
    intro he
    have hd := congrArg String.data he
    rw [show (goToUpper ("DESCRIBE " ++ t)).data
          = 'D' :: 'E' :: 'S' :: 'C' :: 'R' :: 'I' :: 'B' :: 'E' :: ' ' :: List.map upChar t.data from rfl,
        show ("SHOW TABLES --HELP" : String).data = ['S','H','O','W',' ','T','A','B','L','E','S',' ','-','-','H','E','L','P'] from rfl] at hd
    simp +decide at hd
  have hT4 : ¬ (goToUpper ("DESCRIBE " ++ t) = "SHOW COLUMNS --HELP") := by
    intro he
    have hd := congrArg String.data he
    rw [show (goToUpper ("DESCRIBE " ++ t)).data
          = 'D' :: 'E' :: 'S' :: 'C' :: 'R' :: 'I' :: 'B' :: 'E' :: ' ' :: List.map upChar t.data from rfl,
        show ("SHOW COLUMNS --HELP" : String).data = ['S','H','O','W',' ','C','O','L','U','M','N','S',' ','-','-','H','E','L','P'] from rfl] at hd
    simp +decide at hd
  have hT5 : ¬ (goToUpper ("DESCRIBE " ++ t) = "DESC --HELP") := by
    intro he
    have hd := congrArg String.data he
    rw [show (goToUpper ("DESCRIBE " ++ t)).data
          = 'D' :: 'E' :: 'S' :: 'C' :: 'R' :: 'I' :: 'B' :: 'E' :: ' ' :: List.map upChar t.data from rfl,
        show ("DESC --HELP" : String).data = ['D','E','S','C',' ','-','-','H','E','L','P'] from rfl] at hd
    simp +decide at hd
  have hT6 : ¬ (goToUpper ("DESCRIBE " ++ t) = "DESCRIBE --HELP") := by
    intro he
    have hd := congrArg String.data he
    rw [show (goToUpper ("DESCRIBE " ++ t)).data
          = 'D' :: 'E' :: 'S' :: 'C' :: 'R' :: 'I' :: 'B' :: 'E' :: ' ' :: List.map upChar t.data from rfl,
        show ("DESCRIBE --HELP" : String).data = ['D','E','S','C','R','I','B','E',' ','-','-','H','E','L','P'] from rfl] at hd
    simp +decide at hd
    cases ht2 : t.data with
    | nil => exact ht0 ht2
    | cons c0 t0 =>
      rw [ht2] at hd
      simp at hd
      exact wordChar_up_ne_dash c0 (h2 c0 (by rw [ht2]; simp)) hd.1
  have hhelp : handleHelpCommands ("DESCRIBE " ++ t) = none := by
    unfold handleHelpCommands
    rw [htrim]
    rw [if_neg hT1, if_neg hT2, if_neg hT3,
        if_neg (not_or.mpr ⟨hT4, not_or.mpr ⟨hT5, hT6⟩⟩)]
  have hL1 : ¬ (goToUpper ("DESCRIBE " ++ t) = "SHOW DATABASES") := by
    intro he
    have hd := congrArg String.data he
    rw [show (goToUpper ("DESCRIBE " ++ t)).data
          = 'D' :: 'E' :: 'S' :: 'C' :: 'R' :: 'I' :: 'B' :: 'E' :: ' ' :: List.map upChar t.data from rfl,
        show ("SHOW DATABASES" : String).data = ['S','H','O','W',' ','D','A','T','A','B','A','S','E','S'] from rfl] at hd
    simp +decide at hd
  have hL2 : ¬ (goToUpper ("DESCRIBE " ++ t) = "SHOW TABLES") := by
    intro he
    have hd := congrArg String.data he
    rw [show (goToUpper ("DESCRIBE " ++ t)).data
          = 'D' :: 'E' :: 'S' :: 'C' :: 'R' :: 'I' :: 'B' :: 'E' :: ' ' :: List.map upChar t.data from rfl,
        show ("SHOW TABLES" : String).data = ['S','H','O','W',' ','T','A','B','L','E','S'] from rfl] at hd
    simp +decide at hd
  have hL3 : ¬ (goToUpper ("DESCRIBE " ++ t) = "SHOW FULL TABLES") := by
    intro he
    have hd := congrArg String.data he
    rw [show (goToUpper ("DESCRIBE " ++ t)).data
          = 'D' :: 'E' :: 'S' :: 'C' :: 'R' :: 'I' :: 'B' :: 'E' :: ' ' :: List.map upChar t.data from rfl,
        show ("SHOW FULL TABLES" : String).data = ['S','H','O','W',' ','F','U','L','L',' ','T','A','B','L','E','S'] from rfl] at hd
    simp +decide at hd
  have hm1 : mfind showTablesFromRe ("DESCRIBE " ++ t) = none :=
    mfind_none _ _ (by
      rw [show ("DESCRIBE " ++ t).data = 'D' :: 'E' :: 'S' :: 'C' :: 'R' :: 'I' :: 'B' :: 'E' :: ' ' :: t.data from rfl]
      exact mseq_nil_head _ _ _ (mlit_head_ne "SHOW" 'S' ['H','O','W'] 'D' _ rfl (by decide)))
  have hws : capSplits regexSpace t.data = [] :=
    capSplits_nil _ _ (fun c hc => wordChar_not_regexSpace c (h2 c hc))
  have hfil := capSplits_filter_all isWordChar t.data h2 ht0
  have hfind : mfind showColumnsRe ("DESCRIBE " ++ t) = some ["DESCRIBE " ++ t, "DESCRIBE", t] := by
    unfold mfind
    rw [show ("DESCRIBE " ++ t).data = 'D' :: 'E' :: 'S' :: 'C' :: 'R' :: 'I' :: 'B' :: 'E' :: ' ' :: t.data from rfl]
    simp +decide [showColumnsRe, mseqs, mseq, mgroup, malt, mlit, mws, mcap, litMatch,
      capSplits, hws, List.filter_map, Function.comp_def, hfil]
  unfold Translate
  rw [if_neg (by decide : ¬ (DBType.PostgreSQL = DBType.MySQL)), htrim]
  unfold translateForPostgres
  rw [htsemi, if_neg (fun hx => hx hhelp), if_neg hL1, if_neg hL2, if_neg hL3,
      if_neg (fun hx => hx hm1), hfind]
  rw [if_pos (by simp)]
  rfl

set_option maxHeartbeats 1600000 in
lemma translate_show_columns_from_table (t : String) (h1 : t ≠ "") (h2 : ∀ c ∈ t.data, isWordChar c = true) :
    Translate DBType.PostgreSQL ("SHOW COLUMNS FROM " ++ t) = .ok { Query := descColumnsQuery t } := by
  have ht0 : t.data ≠ [] := fun hh => h1 (by cases t with | mk d => simp at hh; rw [hh])
  obtain hcc | ⟨init, lst, hinit⟩ := t.data.eq_nil_or_concat
  · exact absurd hcc ht0
  rw [List.concat_eq_append] at hinit
  have hlst : isWordChar lst = true := h2 lst (by rw [hinit]; simp)
  have htrim : goTrimSpace ("SHOW COLUMNS FROM " ++ t) = "SHOW COLUMNS FROM " ++ t := by
    have hshape : ("SHOW COLUMNS FROM " ++ t) = ⟨'S' :: (('H' :: 'O' :: 'W' :: ' ' :: 'C' :: 'O' :: 'L' :: 'U' :: 'M' :: 'N' :: 'S' :: ' ' :: 'F' :: 'R' :: 'O' :: 'M' :: ' ' :: init) ++ [lst])⟩ := by
      apply String.ext
      show ("SHOW COLUMNS FROM " ++ t).data = _
      simp [hinit]
    rw [hshape]
    exact goTrimSpace_sandwich _ _ _ (by decide) (by simp [wordChar_not_space lst hlst])
  have hlast : ("SHOW COLUMNS FROM " ++ t).data.getLast? = some lst := by
    rw [show ("SHOW COLUMNS FROM " ++ t).data = ("SHOW COLUMNS FROM " : String).data ++ t.data from rfl,
        List.getLast?_append_of_ne_nil _ ht0, hinit]
    exact List.getLast?_concat _
  have htsemi : goTrimSuffixSemi ("SHOW COLUMNS FROM " ++ t) = "SHOW COLUMNS FROM " ++ t := by
    unfold goTrimSuffixSemi
    rw [if_neg (fun hc => wordChar_ne_semi lst hlst
      (by rw [hlast] at hc; exact Option.some.inj hc))]
  have hT1 : ¬ (goToUpper ("SHOW COLUMNS FROM " ++ t) = "SHOW --HELP") := by
    intro he
    have hd := congrArg String.data he
    rw [show (goToUpper ("SHOW COLUMNS FROM " ++ t)).data
          = 'S' :: 'H' :: 'O' :: 'W' :: ' ' :: 'C' :: 'O' :: 'L' :: 'U' :: 'M' :: 'N' :: 'S' :: ' ' :: 'F' :: 'R' :: 'O' :: 'M' :: ' ' :: List.map upChar t.data from rfl,
        show ("SHOW --HELP" : String).data = ['S','H','O','W',' ','-','-','H','E','L','P'] from rfl] at hd
    simp +decide at hd
  have hT2 : ¬ (goToUpper ("SHOW COLUMNS FROM " ++ t) = "SHOW CREATE --HELP") := by
    intro he
    have hd := congrArg String.data he
    rw [show (goToUpper ("SHOW COLUMNS FROM " ++ t)).data
          = 'S' :: 'H' :: 'O' :: 'W' :: ' ' :: 'C' :: 'O' :: 'L' :: 'U' :: 'M' :: 'N' :: 'S' :: ' ' :: 'F' :: 'R' :: 'O' :: 'M' :: ' ' :: List.map upChar t.data from rfl,
        show ("SHOW CREATE --HELP" : String).data = ['S','H','O','W',' ','C','R','E','A','T','E',' ','-','-','H','E','L','P'] from rfl] at hd
    simp +decide at hd
  have hT3 : ¬ (goToUpper ("SHOW COLUMNS FROM " ++ t) = "SHOW TABLES --HELP") := by
    intro he
    have hd := congrArg String.data he
    rw [show (goToUpper ("SHOW COLUMNS FROM " ++ t)).data
          = 'S' :: 'H' :: 'O' :: 'W' :: ' ' :: 'C' :: 'O' :: 'L' :: 'U' :: 'M' :: 'N' :: 'S' :: ' ' :: 'F' :: 'R' :: 'O' :: 'M' :: ' ' :: List.map upChar t.data from rfl,
        show ("SHOW TABLES --HELP" : String).data = ['S','H','O','W',' ','T','A','B','L','E','S',' ','-','-','H','E','L','P'] from rfl] at hd
    simp +decide at hd
  have hT4 : ¬ (goToUpper ("SHOW COLUMNS FROM " ++ t) = "SHOW COLUMNS --HELP") := by
    intro he
    have hd := congrArg String.data he
    rw [show (goToUpper ("SHOW COLUMNS FROM " ++ t)).data
          = 'S' :: 'H' :: 'O' :: 'W' :: ' ' :: 'C' :: 'O' :: 'L' :: 'U' :: 'M' :: 'N' :: 'S' :: ' ' :: 'F' :: 'R' :: 'O' :: 'M' :: ' ' :: List.map upChar t.data from rfl,
        show ("SHOW COLUMNS --HELP" : String).data = ['S','H','O','W',' ','C','O','L','U','M','N','S',' ','-','-','H','E','L','P'] from rfl] at hd
    simp +decide at hd
  have hT5 : ¬ (goToUpper ("SHOW COLUMNS FROM " ++ t) = "DESC --HELP") := by
    intro he
    have hd := congrArg String.data he
    rw [show (goToUpper ("SHOW COLUMNS FROM " ++ t)).data
          = 'S' :: 'H' :: 'O' :: 'W' :: ' ' :: 'C' :: 'O' :: 'L' :: 'U' :: 'M' :: 'N' :: 'S' :: ' ' :: 'F' :: 'R' :: 'O' :: 'M' :: ' ' :: List.map upChar t.data from rfl,
        show ("DESC --HELP" : String).data = ['D','E','S','C',' ','-','-','H','E','L','P'] from rfl] at hd
    simp +decide at hd
  have hT6 : ¬ (goToUpper ("SHOW COLUMNS FROM " ++ t) = "DESCRIBE --HELP") := by
    intro he
    have hd := congrArg String.data he
    rw [show (goToUpper ("SHOW COLUMNS FROM " ++ t)).data
          = 'S' :: 'H' :: 'O' :: 'W' :: ' ' :: 'C' :: 'O' :: 'L' :: 'U' :: 'M' :: 'N' :: 'S' :: ' ' :: 'F' :: 'R' :: 'O' :: 'M' :: ' ' :: List.map upChar t.data from rfl,
        show ("DESCRIBE --HELP" : String).data = ['D','E','S','C','R','I','B','E',' ','-','-','H','E','L','P'] from rfl] at hd
    simp +decide at hd
  have hhelp : handleHelpCommands ("SHOW COLUMNS FROM " ++ t) = none := by
    unfold handleHelpCommands
    rw [htrim]
    rw [if_neg hT1, if_neg hT2, if_neg hT3,
        if_neg (not_or.mpr ⟨hT4, not_or.mpr ⟨hT5, hT6⟩⟩)]
  have hL1 : ¬ (goToUpper ("SHOW COLUMNS FROM " ++ t) = "SHOW DATABASES") := by
    intro he
    have hd := congrArg String.data he
    rw [show (goToUpper ("SHOW COLUMNS FROM " ++ t)).data
          = 'S' :: 'H' :: 'O' :: 'W' :: ' ' :: 'C' :: 'O' :: 'L' :: 'U' :: 'M' :: 'N' :: 'S' :: ' ' :: 'F' :: 'R' :: 'O' :: 'M' :: ' ' :: List.map upChar t.data from rfl,
        show ("SHOW DATABASES" : String).data = ['S','H','O','W',' ','D','A','T','A','B','A','S','E','S'] from rfl] at hd
    simp +decide at hd
  have hL2 : ¬ (goToUpper ("SHOW COLUMNS FROM " ++ t) = "SHOW TABLES") := by
    intro he
    have hd := congrArg String.data he
    rw [show (goToUpper ("SHOW COLUMNS FROM " ++ t)).data
          = 'S' :: 'H' :: 'O' :: 'W' :: ' ' :: 'C' :: 'O' :: 'L' :: 'U' :: 'M' :: 'N' :: 'S' :: ' ' :: 'F' :: 'R' :: 'O' :: 'M' :: ' ' :: List.map upChar t.data from rfl,
        show ("SHOW TABLES" : String).data = ['S','H','O','W',' ','T','A','B','L','E','S'] from rfl] at hd
    simp +decide at hd
  have hL3 : ¬ (goToUpper ("SHOW COLUMNS FROM " ++ t) = "SHOW FULL TABLES") := by
    intro he
    have hd := congrArg String.data he
    rw [show (goToUpper ("SHOW COLUMNS FROM " ++ t)).data
          = 'S' :: 'H' :: 'O' :: 'W' :: ' ' :: 'C' :: 'O' :: 'L' :: 'U' :: 'M' :: 'N' :: 'S' :: ' ' :: 'F' :: 'R' :: 'O' :: 'M' :: ' ' :: List.map upChar t.data from rfl,
        show ("SHOW FULL TABLES" : String).data = ['S','H','O','W',' ','F','U','L','L',' ','T','A','B','L','E','S'] from rfl] at hd
    simp +decide at hd
  have hm1 : mfind showTablesFromRe ("SHOW COLUMNS FROM " ++ t) = none :=
    mfind_none _ _ (by
      rw [show ("SHOW COLUMNS FROM " ++ t).data = 'S' :: 'H' :: 'O' :: 'W' :: ' ' :: 'C' :: 'O' :: 'L' :: 'U' :: 'M' :: 'N' :: 'S' :: ' ' :: 'F' :: 'R' :: 'O' :: 'M' :: ' ' :: t.data from rfl]
      simp +decide [showTablesFromRe, mseqs, mseq, mlit, mws, litMatch, capSplits, mgroup, malt])
  have hws : capSplits regexSpace t.data = [] :=
    capSplits_nil _ _ (fun c hc => wordChar_not_regexSpace c (h2 c hc))
  have hfil := capSplits_filter_all isWordChar t.data h2 ht0
  have hfind : mfind showColumnsRe ("SHOW COLUMNS FROM " ++ t) = some ["SHOW COLUMNS FROM " ++ t, "SHOW COLUMNS FROM", t] := by
    unfold mfind
    rw [show ("SHOW COLUMNS FROM " ++ t).data = 'S' :: 'H' :: 'O' :: 'W' :: ' ' :: 'C' :: 'O' :: 'L' :: 'U' :: 'M' :: 'N' :: 'S' :: ' ' :: 'F' :: 'R' :: 'O' :: 'M' :: ' ' :: t.data from rfl]
    simp +decide [showColumnsRe, mseqs, mseq, mgroup, malt, mlit, mws, mcap, litMatch,
      capSplits, hws, List.filter_map, Function.comp_def, hfil]
  unfold Translate
  rw [if_neg (by decide : ¬ (DBType.PostgreSQL = DBType.MySQL)), htrim]
  unfold translateForPostgres
  rw [htsemi, if_neg (fun hx => hx hhelp), if_neg hL1, if_neg hL2, if_neg hL3,
      if_neg (fun hx => hx hm1), hfind]
  rw [if_pos (by simp)]
  rfl

/-- C7: under the foreign dialect the three synonymous phrasings DESC t,
DESCRIBE t and SHOW COLUMNS FROM t, for a nonempty word-character table name
t, all yield the same rewritten query against the column catalog restricted
to t and ordered by ordinal position, with no special action and no error. -/
theorem describe_synonyms_agree (t : String) (h1 : t ≠ "")
    (h2 : ∀ c ∈ t.data, isWordChar c = true) :
    Translate DBType.PostgreSQL ("DESC " ++ t) = .ok { Query := descColumnsQuery t } ∧
    Translate DBType.PostgreSQL ("DESCRIBE " ++ t) = .ok { Query := descColumnsQuery t } ∧
    Translate DBType.PostgreSQL ("SHOW COLUMNS FROM " ++ t) =
      .ok { Query := descColumnsQuery t } :=
  ⟨translate_desc_table t h1 h2, translate_describe_table t h1 h2,
    translate_show_columns_from_table t h1 h2⟩

/-- C7 (witness): the three phrasings at the table name users. -/
theorem describe_synonyms_agree_witness :
    Translate DBType.PostgreSQL ("DESC " ++ "users") =
      .ok { Query := descColumnsQuery "users" } ∧
    Translate DBType.PostgreSQL ("DESCRIBE " ++ "users") =
      .ok { Query := descColumnsQuery "users" } ∧
    Translate DBType.PostgreSQL ("SHOW COLUMNS FROM " ++ "users") =
      .ok { Query := descColumnsQuery "users" } :=
  describe_synonyms_agree "users" (by decide) (by decide)

end MyGo

namespace MyGo

lemma quote_up_ne (c : Char) (h : notQuote c = true) : ¬ (upChar '\'' = upChar c) := by
  simp only [notQuote, bne_iff_ne, ne_eq] at h
  unfold upChar
  rw [if_neg (by decide)]
  intro he
  by_cases hc : 97 ≤ c.toNat ∧ c.toNat ≤ 122
  · rw [if_pos hc] at he
    have h2 : (Char.ofNat (c.toNat - 32)).toNat = c.toNat - 32 := by
      unfold Char.ofNat
      rw [dif_pos (Or.inl (by omega))]
      simp [Char.ofNatAux, Char.toNat, UInt32.toNat, UInt32.ofNat', BitVec.toNat_ofNatLt]
    have h3 := congrArg Char.toNat he
    rw [h2] at h3
    have h4 : ('\'' : Char).toNat = 39 := by decide
    omega
  · rw [if_neg hc] at he
    have h5 : c.toNat = ('\'' : Char).toNat := congrArg Char.toNat he.symm
    rw [show ('\'' : Char).toNat = 39 from by decide] at h5
    exact h h5

end MyGo

namespace MyGo

lemma capSplits_cons (pch : Char → Bool) (c : Char) (t : List Char) (h : pch c = true) :
    capSplits pch (c :: t) = ((capSplits pch t).map fun q => (c :: q.1, q.2)) ++ [([c], t)] := by
  rw [capSplits, if_pos h]

lemma quoted_capture_aux (l : List Char) (acc : List Char)
    (h : ∀ c ∈ l, notQuote c = true) :
    List.filter (fun x : MStep => x.rest.isEmpty)
      ((List.map (fun q : List Char × List Char =>
            (⟨acc ++ q.1, [(⟨acc ++ q.1⟩ : String)], q.2⟩ : MStep))
          (capSplits notQuote (l ++ ['\'']))).flatMap
        (fun x => List.map (fun y : MStep =>
            (⟨x.consumed ++ y.consumed, x.caps ++ y.caps, y.rest⟩ : MStep))
          (match litMatch ['\''] x.rest with
           | some q => [(⟨q.1, [], q.2⟩ : MStep)]
           | none => [])))
      = if l.isEmpty then [] else [⟨(acc ++ l) ++ ['\''], [(⟨acc ++ l⟩ : String)], []⟩] := by
  induction l generalizing acc with
  | nil => simp +decide [capSplits]
  | cons c t ih =>
    have hc : notQuote c = true := h c (by simp)
    have ht : ∀ x ∈ t, notQuote x = true := fun x hx => h x (by simp [hx])
    rw [show (c :: t) ++ ['\''] = c :: (t ++ ['\'']) from rfl]
    rw [capSplits_cons notQuote c (t ++ ['\'']) hc]
    rw [List.map_append, List.flatMap_append, List.filter_append, List.map_map]
    have hcomp : ((fun q : List Char × List Char =>
          (⟨acc ++ q.1, [(⟨acc ++ q.1⟩ : String)], q.2⟩ : MStep)) ∘
        fun q : List Char × List Char => (c :: q.1, q.2)) =
        (fun q : List Char × List Char =>
          (⟨(acc ++ [c]) ++ q.1, [(⟨(acc ++ [c]) ++ q.1⟩ : String)], q.2⟩ : MStep)) := by
      funext q
      simp
    rw [hcomp, ih (acc ++ [c]) ht]
    cases t with
    | nil =>
      simp +decide [litMatch]
    | cons d u =>
      have hd : notQuote d = true := ht d (by simp)
      have hlm : litMatch ['\''] (d :: (u ++ ['\''])) = none := by
        rw [litMatch, if_neg (quote_up_ne d hd)]
      simp [hlm]

end MyGo

namespace MyGo

lemma quoted_capture_core (l : List Char) (h : ∀ c ∈ l, notQuote c = true) :
    List.filter (fun x : MStep => x.rest.isEmpty)
      ((List.map (fun q : List Char × List Char =>
            (⟨q.1, [(⟨q.1⟩ : String)], q.2⟩ : MStep))
          (capSplits notQuote (l ++ ['\'']))).flatMap
        (fun x => List.map (fun y : MStep =>
            (⟨x.consumed ++ y.consumed, x.caps ++ y.caps, y.rest⟩ : MStep))
          (match litMatch ['\''] x.rest with
           | some q => [(⟨q.1, [], q.2⟩ : MStep)]
           | none => [])))
      = if l.isEmpty then [] else [⟨l ++ ['\''], [(⟨l⟩ : String)], []⟩] := by
  have h2 := quoted_capture_aux l [] h
  simpa using h2

end MyGo

namespace MyGo

lemma replaceAllFuel_step_neg (f : Nat) (old nw : List Char) (c : Char) (t : List Char)
    (h : ¬ (old.isPrefixOf (c :: t) && !old.isEmpty) = true) :
    replaceAllFuel (f+1) old nw (c :: t) = c :: replaceAllFuel f old nw t := by
  rw [replaceAllFuel, if_neg h]

lemma replaceAllFuel_step_pos (f : Nat) (old nw : List Char) (c : Char) (t : List Char)
    (h : (old.isPrefixOf (c :: t) && !old.isEmpty) = true) :
    replaceAllFuel (f+1) old nw (c :: t) =
      nw ++ replaceAllFuel f old nw ((c :: t).drop old.length) := by
  rw [replaceAllFuel, if_pos h]

lemma replaceAll_single (o : Char) (nw : List Char) (l : List Char) :
    ∀ f, l.length ≤ f →
    replaceAllFuel f [o] nw l = l.flatMap (fun c => if c = o then nw else [c]) := by
  induction l with
  | nil =>
    intro f _
    cases f <;> simp [replaceAllFuel]
  | cons c t ih =>
    intro f hf
    cases f with
    | zero => simp at hf
    | succ f =>
      by_cases hc : c = o
      · subst hc
        rw [replaceAllFuel_step_pos f [c] nw c t (by simp [List.isPrefixOf])]
        rw [show List.drop (List.length [c]) (c :: t) = t from rfl,
            ih f (Nat.le_of_succ_le_succ hf)]
        simp
      · rw [replaceAllFuel_step_neg f [o] nw c t
          (by simp [List.isPrefixOf, beq_iff_eq]; exact fun he => absurd he.symm hc)]
        rw [ih f (Nat.le_of_succ_le_succ hf)]
        simp [hc]

lemma flatMap_combine (l : List Char) :
    (l.flatMap (fun c => if c = '%' then ['%','%'] else [c])).flatMap
        (fun c => if c = '_' then ['.'] else [c])
      = l.flatMap (fun c => if c = '%' then ['%','%'] else if c = '_' then ['.'] else [c]) := by
  induction l with
  | nil => rfl
  | cons c t ih =>
    simp only [List.flatMap_cons, List.flatMap_append]
    by_cases hc : c = '%'
    · simp [hc, ih]
    · by_cases h2 : c = '_' <;> simp [hc, h2, ih]

lemma replaceAll_pairs (l : List Char) :
    ∀ f, (l.flatMap (fun c => if c = '%' then ['%','%'] else if c = '_' then ['.'] else [c])).length ≤ f →
    replaceAllFuel f ['%','%'] ['.','*']
        (l.flatMap (fun c => if c = '%' then ['%','%'] else if c = '_' then ['.'] else [c]))
      = l.flatMap (fun c => if c = '%' then ['.','*'] else if c = '_' then ['.'] else [c]) := by
  induction l with
  | nil =>
    intro f _
    cases f <;> simp [replaceAllFuel]
  | cons c t ih =>
    intro f hf
    by_cases hc : c = '%'
    · subst hc
      simp only [List.flatMap_cons, reduceIte, List.cons_append, List.nil_append] at hf ⊢
      cases f with
      | zero => simp at hf
      | succ f =>
        rw [replaceAllFuel_step_pos f ['%','%'] ['.','*'] '%' _ (by simp [List.isPrefixOf])]
        rw [show List.drop (List.length ['%','%']) ('%' :: '%' :: (t.flatMap fun c =>
              if c = '%' then ['%','%'] else if c = '_' then ['.'] else [c]))
            = t.flatMap (fun c => if c = '%' then ['%','%'] else if c = '_' then ['.'] else [c])
            from rfl]
        rw [ih f (by simp only [List.length_cons] at hf; omega)]
        rfl
    · by_cases h2 : c = '_'
      · subst h2
        simp only [List.flatMap_cons, if_neg hc, reduceIte, List.cons_append,
          List.nil_append] at hf ⊢
        cases f with
        | zero => simp at hf
        | succ f =>
          rw [replaceAllFuel_step_neg f ['%','%'] ['.','*'] '.' _ (by simp [List.isPrefixOf])]
          rw [ih f (by simp only [List.length_cons] at hf; omega)]
      · simp only [List.flatMap_cons, if_neg hc, if_neg h2, List.cons_append,
          List.nil_append] at hf ⊢
        cases f with
        | zero => simp at hf
        | succ f =>
          rw [replaceAllFuel_step_neg f ['%','%'] ['.','*'] c _
            (by simp [List.isPrefixOf, beq_iff_eq]; exact fun he => absurd he.symm hc)]
          rw [ih f (by simp only [List.length_cons] at hf; omega)]

lemma mysqlPattern_eq_spec (p : String) : mysqlPatternToRegex p = specPatternRewrite p := by
  unfold mysqlPatternToRegex goReplaceAll specPatternRewrite
  rw [show ("%" : String).data = ['%'] from rfl, show ("%%" : String).data = ['%','%'] from rfl,
      show ("_" : String).data = ['_'] from rfl, show ("." : String).data = ['.'] from rfl,
      show (".*" : String).data = ['.','*'] from rfl]
  rw [replaceAll_single '%' ['%','%'] p.data p.data.length (le_refl _)]
  rw [replaceAll_single '_' ['.'] _ _ (le_refl _)]
  rw [flatMap_combine p.data]
  rw [replaceAll_pairs p.data _ (le_refl _)]

end MyGo

namespace MyGo

set_option maxHeartbeats 1600000 in
lemma translate_show_variables_like (p : String) (h1 : p ≠ "")
    (h2 : ∀ c ∈ p.data, notQuote c = true) :
    Translate DBType.PostgreSQL ("SHOW VARIABLES LIKE '" ++ p ++ "'") =
      .ok { Query := showVarsLikeQuery (mysqlPatternToRegex p) } := by
  have hp0 : p.data ≠ [] := fun hh => h1 (by cases p with | mk d => simp at hh; rw [hh])
  have hshape : ("SHOW VARIABLES LIKE '" ++ p ++ "'") = ⟨'S' :: (('H' :: 'O' :: 'W' :: ' ' :: 'V' :: 'A' :: 'R' :: 'I' :: 'A' :: 'B' :: 'L' :: 'E' :: 'S' :: ' ' :: 'L' :: 'I' :: 'K' :: 'E' :: ' ' :: '\'' :: p.data) ++ ['\''])⟩ := rfl
  have htrim : goTrimSpace ("SHOW VARIABLES LIKE '" ++ p ++ "'") = "SHOW VARIABLES LIKE '" ++ p ++ "'" := by
    rw [hshape]
    exact goTrimSpace_sandwich _ _ _ (by decide) (by decide)
  have hlast : ("SHOW VARIABLES LIKE '" ++ p ++ "'").data.getLast? = some '\'' := by
    rw [show ("SHOW VARIABLES LIKE '" ++ p ++ "'").data = ("SHOW VARIABLES LIKE '" : String).data ++ (p.data ++ ['\'']) from rfl,
        List.getLast?_append_of_ne_nil _ (by simp)]
    exact List.getLast?_concat _
  have htsemi : goTrimSuffixSemi ("SHOW VARIABLES LIKE '" ++ p ++ "'") = "SHOW VARIABLES LIKE '" ++ p ++ "'" := by
    unfold goTrimSuffixSemi
    rw [if_neg (fun hcq => by rw [hlast] at hcq; exact absurd (Option.some.inj hcq) (by decide))]
  have hT1 : ¬ (goToUpper ("SHOW VARIABLES LIKE '" ++ p ++ "'") = "SHOW --HELP") := by
    intro he
    have hd := congrArg String.data he
    rw [show (goToUpper ("SHOW VARIABLES LIKE '" ++ p ++ "'")).data
          = 'S' :: 'H' :: 'O' :: 'W' :: ' ' :: 'V' :: 'A' :: 'R' :: 'I' :: 'A' :: 'B' :: 'L' :: 'E' :: 'S' :: ' ' :: 'L' :: 'I' :: 'K' :: 'E' :: ' ' :: '\'' :: List.map upChar (p.data ++ ['\'']) from rfl,
        show ("SHOW --HELP" : String).data = ['S','H','O','W',' ','-','-','H','E','L','P'] from rfl] at hd
    simp +decide at hd
  have hT2 : ¬ (goToUpper ("SHOW VARIABLES LIKE '" ++ p ++ "'") = "SHOW CREATE --HELP") := by
    intro he
    have hd := congrArg String.data he
    rw [show (goToUpper ("SHOW VARIABLES LIKE '" ++ p ++ "'")).data
          = 'S' :: 'H' :: 'O' :: 'W' :: ' ' :: 'V' :: 'A' :: 'R' :: 'I' :: 'A' :: 'B' :: 'L' :: 'E' :: 'S' :: ' ' :: 'L' :: 'I' :: 'K' :: 'E' :: ' ' :: '\'' :: List.map upChar (p.data ++ ['\'']) from rfl,
        show ("SHOW CREATE --HELP" : String).data = ['S','H','O','W',' ','C','R','E','A','T','E',' ','-','-','H','E','L','P'] from rfl] at hd
    simp +decide at hd
  have hT3 : ¬ (goToUpper ("SHOW VARIABLES LIKE '" ++ p ++ "'") = "SHOW TABLES --HELP") := by
    intro he
    have hd := congrArg String.data he
    rw [show (goToUpper ("SHOW VARIABLES LIKE '" ++ p ++ "'")).data
          = 'S' :: 'H' :: 'O' :: 'W' :: ' ' :: 'V' :: 'A' :: 'R' :: 'I' :: 'A' :: 'B' :: 'L' :: 'E' :: 'S' :: ' ' :: 'L' :: 'I' :: 'K' :: 'E' :: ' ' :: '\'' :: List.map upChar (p.data ++ ['\'']) from rfl,
        show ("SHOW TABLES --HELP" : String).data = ['S','H','O','W',' ','T','A','B','L','E','S',' ','-','-','H','E','L','P'] from rfl] at hd
    simp +decide at hd
  have hT4 : ¬ (goToUpper ("SHOW VARIABLES LIKE '" ++ p ++ "'") = "SHOW COLUMNS --HELP") := by
    intro he
    have hd := congrArg String.data he
    rw [show (goToUpper ("SHOW VARIABLES LIKE '" ++ p ++ "'")).data
          = 'S' :: 'H' :: 'O' :: 'W' :: ' ' :: 'V' :: 'A' :: 'R' :: 'I' :: 'A' :: 'B' :: 'L' :: 'E' :: 'S' :: ' ' :: 'L' :: 'I' :: 'K' :: 'E' :: ' ' :: '\'' :: List.map upChar (p.data ++ ['\'']) from rfl,
        show ("SHOW COLUMNS --HELP" : String).data = ['S','H','O','W',' ','C','O','L','U','M','N','S',' ','-','-','H','E','L','P'] from rfl] at hd
    simp +decide at hd
  have hT5 : ¬ (goToUpper ("SHOW VARIABLES LIKE '" ++ p ++ "'") = "DESC --HELP") := by
    intro he
    have hd := congrArg String.data he
    rw [show (goToUpper ("SHOW VARIABLES LIKE '" ++ p ++ "'")).data
          = 'S' :: 'H' :: 'O' :: 'W' :: ' ' :: 'V' :: 'A' :: 'R' :: 'I' :: 'A' :: 'B' :: 'L' :: 'E' :: 'S' :: ' ' :: 'L' :: 'I' :: 'K' :: 'E' :: ' ' :: '\'' :: List.map upChar (p.data ++ ['\'']) from rfl,
        show ("DESC --HELP" : String).data = ['D','E','S','C',' ','-','-','H','E','L','P'] from rfl] at hd
    simp +decide at hd
  have hT6 : ¬ (goToUpper ("SHOW VARIABLES LIKE '" ++ p ++ "'") = "DESCRIBE --HELP") := by
    intro he
    have hd := congrArg String.data he
    rw [show (goToUpper ("SHOW VARIABLES LIKE '" ++ p ++ "'")).data
          = 'S' :: 'H' :: 'O' :: 'W' :: ' ' :: 'V' :: 'A' :: 'R' :: 'I' :: 'A' :: 'B' :: 'L' :: 'E' :: 'S' :: ' ' :: 'L' :: 'I' :: 'K' :: 'E' :: ' ' :: '\'' :: List.map upChar (p.data ++ ['\'']) from rfl,
        show ("DESCRIBE --HELP" : String).data = ['D','E','S','C','R','I','B','E',' ','-','-','H','E','L','P'] from rfl] at hd
    simp +decide at hd
  have hhelp : handleHelpCommands ("SHOW VARIABLES LIKE '" ++ p ++ "'") = none := by
    unfold handleHelpCommands
    rw [htrim]
    rw [if_neg hT1, if_neg hT2, if_neg hT3,
        if_neg (not_or.mpr ⟨hT4, not_or.mpr ⟨hT5, hT6⟩⟩)]
  have hL1 : ¬ (goToUpper ("SHOW VARIABLES LIKE '" ++ p ++ "'") = "SHOW DATABASES") := by
    intro he
    have hd := congrArg String.data he
    rw [show (goToUpper ("SHOW VARIABLES LIKE '" ++ p ++ "'")).data
          = 'S' :: 'H' :: 'O' :: 'W' :: ' ' :: 'V' :: 'A' :: 'R' :: 'I' :: 'A' :: 'B' :: 'L' :: 'E' :: 'S' :: ' ' :: 'L' :: 'I' :: 'K' :: 'E' :: ' ' :: '\'' :: List.map upChar (p.data ++ ['\'']) from rfl,
        show ("SHOW DATABASES" : String).data = ['S','H','O','W',' ','D','A','T','A','B','A','S','E','S'] from rfl] at hd
    simp +decide at hd
  have hL2 : ¬ (goToUpper ("SHOW VARIABLES LIKE '" ++ p ++ "'") = "SHOW TABLES") := by
    intro he
    have hd := congrArg String.data he
    rw [show (goToUpper ("SHOW VARIABLES LIKE '" ++ p ++ "'")).data
          = 'S' :: 'H' :: 'O' :: 'W' :: ' ' :: 'V' :: 'A' :: 'R' :: 'I' :: 'A' :: 'B' :: 'L' :: 'E' :: 'S' :: ' ' :: 'L' :: 'I' :: 'K' :: 'E' :: ' ' :: '\'' :: List.map upChar (p.data ++ ['\'']) from rfl,
        show ("SHOW TABLES" : String).data = ['S','H','O','W',' ','T','A','B','L','E','S'] from rfl] at hd
    simp +decide at hd
  have hL3 : ¬ (goToUpper ("SHOW VARIABLES LIKE '" ++ p ++ "'") = "SHOW FULL TABLES") := by
    intro he
    have hd := congrArg String.data he
    rw [show (goToUpper ("SHOW VARIABLES LIKE '" ++ p ++ "'")).data
          = 'S' :: 'H' :: 'O' :: 'W' :: ' ' :: 'V' :: 'A' :: 'R' :: 'I' :: 'A' :: 'B' :: 'L' :: 'E' :: 'S' :: ' ' :: 'L' :: 'I' :: 'K' :: 'E' :: ' ' :: '\'' :: List.map upChar (p.data ++ ['\'']) from rfl,
        show ("SHOW FULL TABLES" : String).data = ['S','H','O','W',' ','F','U','L','L',' ','T','A','B','L','E','S'] from rfl] at hd
    simp +decide at hd
  have hm1 : mfind showTablesFromRe ("SHOW VARIABLES LIKE '" ++ p ++ "'") = none :=
    mfind_none _ _ (by
      rw [show ("SHOW VARIABLES LIKE '" ++ p ++ "'").data = 'S' :: 'H' :: 'O' :: 'W' :: ' ' :: 'V' :: 'A' :: 'R' :: 'I' :: 'A' :: 'B' :: 'L' :: 'E' :: 'S' :: ' ' :: 'L' :: 'I' :: 'K' :: 'E' :: ' ' :: '\'' :: (p.data ++ ['\'']) from rfl]
      simp +decide [showTablesFromRe, mseqs, mseq, mgroup, malt, mlit, mws, mcap, mopt, mstar, litMatch, capSplits])
  have hm2 : mfind showColumnsRe ("SHOW VARIABLES LIKE '" ++ p ++ "'") = none :=
    mfind_none _ _ (by
      rw [show ("SHOW VARIABLES LIKE '" ++ p ++ "'").data = 'S' :: 'H' :: 'O' :: 'W' :: ' ' :: 'V' :: 'A' :: 'R' :: 'I' :: 'A' :: 'B' :: 'L' :: 'E' :: 'S' :: ' ' :: 'L' :: 'I' :: 'K' :: 'E' :: ' ' :: '\'' :: (p.data ++ ['\'']) from rfl]
      simp +decide [showColumnsRe, mseqs, mseq, mgroup, malt, mlit, mws, mcap, mopt, mstar, litMatch, capSplits])
  have hm3 : mfind showFullColumnsRe ("SHOW VARIABLES LIKE '" ++ p ++ "'") = none :=
    mfind_none _ _ (by
      rw [show ("SHOW VARIABLES LIKE '" ++ p ++ "'").data = 'S' :: 'H' :: 'O' :: 'W' :: ' ' :: 'V' :: 'A' :: 'R' :: 'I' :: 'A' :: 'B' :: 'L' :: 'E' :: 'S' :: ' ' :: 'L' :: 'I' :: 'K' :: 'E' :: ' ' :: '\'' :: (p.data ++ ['\'']) from rfl]
      simp +decide [showFullColumnsRe, mseqs, mseq, mgroup, malt, mlit, mws, mcap, mopt, mstar, litMatch, capSplits])
  have hm4 : mfind showCreateTableRe ("SHOW VARIABLES LIKE '" ++ p ++ "'") = none :=
    mfind_none _ _ (by
      rw [show ("SHOW VARIABLES LIKE '" ++ p ++ "'").data = 'S' :: 'H' :: 'O' :: 'W' :: ' ' :: 'V' :: 'A' :: 'R' :: 'I' :: 'A' :: 'B' :: 'L' :: 'E' :: 'S' :: ' ' :: 'L' :: 'I' :: 'K' :: 'E' :: ' ' :: '\'' :: (p.data ++ ['\'']) from rfl]
      simp +decide [showCreateTableRe, mseqs, mseq, mgroup, malt, mlit, mws, mcap, mopt, mstar, litMatch, capSplits])
  have hm5 : mfind showCreateDatabaseRe ("SHOW VARIABLES LIKE '" ++ p ++ "'") = none :=
    mfind_none _ _ (by
      rw [show ("SHOW VARIABLES LIKE '" ++ p ++ "'").data = 'S' :: 'H' :: 'O' :: 'W' :: ' ' :: 'V' :: 'A' :: 'R' :: 'I' :: 'A' :: 'B' :: 'L' :: 'E' :: 'S' :: ' ' :: 'L' :: 'I' :: 'K' :: 'E' :: ' ' :: '\'' :: (p.data ++ ['\'']) from rfl]
      simp +decide [showCreateDatabaseRe, mseqs, mseq, mgroup, malt, mlit, mws, mcap, mopt, mstar, litMatch, capSplits])
  have hm6 : mfind showIndexRe ("SHOW VARIABLES LIKE '" ++ p ++ "'") = none :=
    mfind_none _ _ (by
      rw [show ("SHOW VARIABLES LIKE '" ++ p ++ "'").data = 'S' :: 'H' :: 'O' :: 'W' :: ' ' :: 'V' :: 'A' :: 'R' :: 'I' :: 'A' :: 'B' :: 'L' :: 'E' :: 'S' :: ' ' :: 'L' :: 'I' :: 'K' :: 'E' :: ' ' :: '\'' :: (p.data ++ ['\'']) from rfl]
      simp +decide [showIndexRe, mseqs, mseq, mgroup, malt, mlit, mws, mcap, mopt, mstar, litMatch, capSplits])
  have hL11 : ¬ (goToUpper ("SHOW VARIABLES LIKE '" ++ p ++ "'") = "SHOW STATUS") := by
    intro he
    have hd := congrArg String.data he
    rw [show (goToUpper ("SHOW VARIABLES LIKE '" ++ p ++ "'")).data
          = 'S' :: 'H' :: 'O' :: 'W' :: ' ' :: 'V' :: 'A' :: 'R' :: 'I' :: 'A' :: 'B' :: 'L' :: 'E' :: 'S' :: ' ' :: 'L' :: 'I' :: 'K' :: 'E' :: ' ' :: '\'' :: List.map upChar (p.data ++ ['\'']) from rfl,
        show ("SHOW STATUS" : String).data = ['S','H','O','W',' ','S','T','A','T','U','S'] from rfl] at hd
    simp +decide at hd
  have hL12a : ¬ (goToUpper ("SHOW VARIABLES LIKE '" ++ p ++ "'") = "SHOW VARIABLES") := by
    intro he
    have hd := congrArg String.data he
    rw [show (goToUpper ("SHOW VARIABLES LIKE '" ++ p ++ "'")).data
          = 'S' :: 'H' :: 'O' :: 'W' :: ' ' :: 'V' :: 'A' :: 'R' :: 'I' :: 'A' :: 'B' :: 'L' :: 'E' :: 'S' :: ' ' :: 'L' :: 'I' :: 'K' :: 'E' :: ' ' :: '\'' :: List.map upChar (p.data ++ ['\'']) from rfl,
        show ("SHOW VARIABLES" : String).data = ['S','H','O','W',' ','V','A','R','I','A','B','L','E','S'] from rfl] at hd
    simp +decide at hd
  have hL12b : ¬ (goToUpper ("SHOW VARIABLES LIKE '" ++ p ++ "'") = "SHOW GLOBAL VARIABLES") := by
    intro he
    have hd := congrArg String.data he
    rw [show (goToUpper ("SHOW VARIABLES LIKE '" ++ p ++ "'")).data
          = 'S' :: 'H' :: 'O' :: 'W' :: ' ' :: 'V' :: 'A' :: 'R' :: 'I' :: 'A' :: 'B' :: 'L' :: 'E' :: 'S' :: ' ' :: 'L' :: 'I' :: 'K' :: 'E' :: ' ' :: '\'' :: List.map upChar (p.data ++ ['\'']) from rfl,
        show ("SHOW GLOBAL VARIABLES" : String).data = ['S','H','O','W',' ','G','L','O','B','A','L',' ','V','A','R','I','A','B','L','E','S'] from rfl] at hd
    simp +decide at hd
  have hfind : mfind showVarsLikeRe ("SHOW VARIABLES LIKE '" ++ p ++ "'") =
      some ["SHOW VARIABLES LIKE '" ++ p ++ "'", "", p] := by
    unfold mfind
    rw [show ("SHOW VARIABLES LIKE '" ++ p ++ "'").data = 'S' :: 'H' :: 'O' :: 'W' :: ' ' :: 'V' :: 'A' :: 'R' :: 'I' :: 'A' :: 'B' :: 'L' :: 'E' :: 'S' :: ' ' :: 'L' :: 'I' :: 'K' :: 'E' :: ' ' :: '\'' :: (p.data ++ ['\'']) from rfl]
    simp +decide [showVarsLikeRe, mseqs, mseq, mgroup, malt, mlit, mws, mcap, mopt, mstar, litMatch, capSplits]
    rw [List.filter_map]
    simp only [Function.comp_def]
    rw [quoted_capture_core p.data h2]
    simp [hp0]
  unfold Translate
  rw [if_neg (by decide : ¬ (DBType.PostgreSQL = DBType.MySQL)), htrim]
  unfold translateForPostgres
  rw [htsemi, if_neg (fun hx => hx hhelp), if_neg hL1, if_neg hL2, if_neg hL3,
      if_neg (fun hx => hx hm1), if_neg (fun hx => hx hm2), if_neg (fun hx => hx hm3),
      if_neg (fun hx => hx hm4), if_neg (fun hx => hx hm5), if_neg (fun hx => hx hm6),
      if_neg hL11, if_neg (not_or.mpr ⟨hL12a, hL12b⟩), hfind]
  rw [if_pos (by simp)]
  rfl

end MyGo

namespace MyGo

/-- C6: under the foreign dialect, for every nonempty pattern p of non-quote
characters, translating SHOW VARIABLES LIKE 'p' yields the query filtering the
settings catalog pg_settings by p with every % rewritten to the match-many
regex .* and every _ rewritten to the match-one regex . (specPatternRewrite
states that wildcard translation directly). -/
theorem show_variables_like_wildcards (p : String) (h1 : p ≠ "")
    (h2 : ∀ c ∈ p.data, notQuote c = true) :
    Translate DBType.PostgreSQL ("SHOW VARIABLES LIKE '" ++ p ++ "'") =
      .ok { Query := showVarsLikeQuery (specPatternRewrite p) } := by
  rw [translate_show_variables_like p h1 h2, mysqlPattern_eq_spec]

/-- C6 (witness): the wildcard translation at the pattern max%. -/
theorem show_variables_like_wildcards_witness :
    ("max%" : String) ≠ "" ∧
    Translate DBType.PostgreSQL "SHOW VARIABLES LIKE 'max%'" =
      .ok { Query := showVarsLikeQuery (specPatternRewrite "max%") } :=
  ⟨by decide, show_variables_like_wildcards "max%" (by decide) (by decide)⟩

/-- C6 (counterexample to the unrestricted claim): at the empty pattern the
input SHOW VARIABLES LIKE '' matches no rule and passes through unchanged, so
no settings-catalog query is produced. -/
theorem show_variables_like_empty_cex :
    Translate DBType.PostgreSQL "SHOW VARIABLES LIKE ''" =
      .ok { Query := "SHOW VARIABLES LIKE ''" } := by
  decide

end MyGo
